import Mathlib

/-!
Verification of the swagger-driven API test engine
(`swagger_tester.py`, `app.py`) against its specification.

The Python source is shallowly embedded: JSON-like Python values become
`JVal`, Python dicts become ordered association lists, and the network is
an explicit oracle `Probe : HttpRequest → NetOutcome` passed to every
function that performs I/O in the source.  Every embedded definition keeps
the source's name and control flow; external library behaviour
(`requests`, `urllib`, `json.dumps`, `base64`) is modelled by small
explicit functions.
-/

namespace SwaggerTester

/-- JSON-like Python value: the values that flow through the engine
(`None`, booleans, integers, strings, lists, dicts). Dicts are ordered
association lists, mirroring Python 3.7+ insertion order. -/
inductive JVal where
  | null : JVal
  | bool : Bool → JVal
  | int : Int → JVal
  | str : String → JVal
  | arr : List JVal → JVal
  | obj : List (String × JVal) → JVal

/-- Python truthiness for the embedded values:
`None`, `False`, `0`, `""`, `[]`, `{}` are falsy. -/
def JVal.truthy : JVal → Bool
  | .null => false
  | .bool b => b
  | .int n => n != 0
  | .str s => s ≠ ""
  | .arr l => ¬ l.isEmpty
  | .obj l => ¬ l.isEmpty

/-- `d[k]` lookup on a dict value: first (unique, in Python) matching key. -/
def JVal.lookup : JVal → String → Option JVal
  | .obj fields, k => fields.lookup k
  | _, _ => none

/-- Python `d.get(k, default)`. -/
def JVal.getD (j : JVal) (k : String) (default : JVal) : JVal :=
  (j.lookup k).getD default

/-- Python `repr` for the embedded values (string escaping elided: the
engine only ever builds previews and URLs from it). -/
def JVal.pyRepr : JVal → String
  | .null => "None"
  | .bool true => "True"
  | .bool false => "False"
  | .int n => toString n
  | .str s => "\x27" ++ s ++ "\x27"
  | .arr l => "[" ++ String.intercalate ", " (l.attach.map (fun x => x.1.pyRepr)) ++ "]"
  | .obj l => "\x7b" ++
      String.intercalate ", "
        (l.attach.map (fun x => "\x27" ++ x.1.1 ++ "\x27: " ++ x.1.2.pyRepr)) ++ "\x7d"
decreasing_by
  · have := List.sizeOf_lt_of_mem x.2; simp at this ⊢; omega
  · obtain ⟨⟨a, b⟩, hmem⟩ := x
    have := List.sizeOf_lt_of_mem hmem
    simp at this ⊢
    omega

/-- Python `str()` for the embedded values. -/
def JVal.pyStr : JVal → String
  | .str s => s
  | v => v.pyRepr

/-- `json.dumps` modelled compactly (the engine only uses the result for
bounded previews and substring scans). -/
def json_dumps : JVal → String
  | .null => "null"
  | .bool true => "true"
  | .bool false => "false"
  | .int n => toString n
  | .str s => "\x22" ++ s ++ "\x22"
  | .arr l => "[" ++ String.intercalate ", " (l.attach.map (fun x => json_dumps x.1)) ++ "]"
  | .obj l => "\x7b" ++
      String.intercalate ", "
        (l.attach.map (fun x => "\x22" ++ x.1.1 ++ "\x22: " ++ json_dumps x.1.2)) ++ "\x7d"
decreasing_by
  · have := List.sizeOf_lt_of_mem x.2; simp at this ⊢; omega
  · obtain ⟨⟨a, b⟩, hmem⟩ := x
    have := List.sizeOf_lt_of_mem hmem
    simp at this ⊢
    omega

/-- Ordered dict over strings (Python dict): `d[k] = v` replaces the value
in place when the key exists, else appends. -/
def insertA {α : Type} (d : List (String × α)) (k : String) (v : α) :
    List (String × α) :=
  match d with
  | [] => [(k, v)]
  | (k', v') :: rest =>
      if k' = k then (k', v) :: rest else (k', v') :: insertA rest k v

/-- Python `d.update(other)`. -/
def updateAll {α : Type} (d other : List (String × α)) : List (String × α) :=
  other.foldl (fun acc kv => insertA acc kv.1 kv.2) d

/-- Python `"sub" in s` substring test. -/
def strContains (s sub : String) : Bool :=
  decide (sub.toList <:+: s.toList)

/-- Python `str.lower` (ASCII, as the engine's vocabulary is ASCII). -/
def pyLower (s : String) : String :=
  (s.toList.map (fun c =>
    if c.isUpper then Char.ofNat (c.toNat + 32) else c)).asString

/-- Python `str.upper` (ASCII). -/
def pyUpper (s : String) : String :=
  (s.toList.map (fun c =>
    if c.isLower then Char.ofNat (c.toNat - 32) else c)).asString

/-- Python whitespace for `str.strip()`. -/
def pyIsSpace (c : Char) : Bool :=
  c = ' ' ∨ c = Char.ofNat 9 ∨ c = Char.ofNat 10 ∨ c = Char.ofNat 13

/-- Python `str.strip()`. -/
def pyStrip (s : String) : String :=
  (((s.toList.dropWhile pyIsSpace).reverse.dropWhile
    pyIsSpace).reverse).asString

/-- Python `str.startswith`. -/
def pyStartsWith (s pre : String) : Bool :=
  pre.toList.isPrefixOf s.toList

/-- Python `str.split(sep)` for a one-character separator. -/
def splitChar (sep : Char) : List Char → List (List Char)
  | [] => [[]]
  | c :: rest =>
      if c = sep then [] :: splitChar sep rest
      else
        match splitChar sep rest with
        | [] => [[c]]
        | g :: gs => (c :: g) :: gs

/-- Python `str.split(sep)` (one-character separator, as used). -/
def pySplit (s : String) (sep : Char) : List String :=
  (splitChar sep s.toList).map List.asString

/-- Python `str.replace` on character lists (the pattern's head is split
off so the recursion is structural). -/
def pyReplaceList (p0 : Char) (ps repl : List Char) : List Char → List Char
  | [] => []
  | c :: rest =>
      if (p0 :: ps).isPrefixOf (c :: rest) then
        repl ++ pyReplaceList p0 ps repl (rest.drop ps.length)
      else c :: pyReplaceList p0 ps repl rest
termination_by l => l.length
decreasing_by
  · simp only [List.length_cons, List.length_drop]; omega
  · simp only [List.length_cons]; omega

/-- Python `str.replace` (all occurrences, left to right). -/
def pyReplace (s pat repl : String) : String :=
  match pat.toList with
  | [] => s
  | p0 :: ps => (pyReplaceList p0 ps repl.toList s.toList).asString

/-- UTF-8 bytes of one character (model of Python's default `encode`). -/
def charUtf8Bytes (c : Char) : List Nat :=
  let n := c.toNat
  if n < 0x80 then [n]
  else if n < 0x800 then [0xC0 + n / 64, 0x80 + n % 64]
  else if n < 0x10000 then [0xE0 + n / 4096, 0x80 + (n / 64) % 64, 0x80 + n % 64]
  else [0xF0 + n / 262144, 0x80 + (n / 4096) % 64, 0x80 + (n / 64) % 64, 0x80 + n % 64]

/-- Upper-case hex digit. -/
def hexDigit (n : Nat) : Char :=
  "0123456789ABCDEF".toList.getD n "0".toList.headI

/-- `urllib.parse.quote_plus`: keep alphanumerics and `_.-~`, space → `+`,
everything else percent-encoded from its UTF-8 bytes. -/
def quote_plus (s : String) : String :=
  String.join <| s.toList.map fun c =>
    if c.isAlphanum ∨ c = "_".toList.headI ∨ c = "-".toList.headI ∨
        c = ".".toList.headI ∨ c = "~".toList.headI then String.singleton c
    else if c = " ".toList.headI then "+"
    else String.join <| (charUtf8Bytes c).map fun b =>
      "%" ++ String.singleton (hexDigit (b / 16)) ++ String.singleton (hexDigit (b % 16))

/-- `urllib.parse.urlencode(query, doseq=True)`: one `k=v` pair per scalar
value, exploded pairs for list values, joined with `&`. -/
def urlencode (query : List (String × JVal)) : String :=
  String.intercalate "&" <| query.foldr (fun kv acc =>
    match kv.2 with
    | .arr l => l.map (fun e => quote_plus kv.1 ++ "=" ++ quote_plus e.pyStr) ++ acc
    | .str s => (quote_plus kv.1 ++ "=" ++ quote_plus s) :: acc
    | v => (quote_plus kv.1 ++ "=" ++ quote_plus v.pyStr) :: acc) []

/-- Base64 alphabet character. -/
def b64char (n : Nat) : Char :=
  "ABCDEFGHIJKLMNOPQRSTUVWXYZabcdefghijklmnopqrstuvwxyz0123456789+/".toList.getD n
    "A".toList.headI

/-- Base64 of a byte list, three bytes at a time. -/
def base64Bytes : List Nat → String
  | [] => ""
  | [a] =>
      String.singleton (b64char (a / 4)) ++
      String.singleton (b64char ((a % 4) * 16)) ++ "=="
  | [a, b] =>
      String.singleton (b64char (a / 4)) ++
      String.singleton (b64char ((a % 4) * 16 + b / 16)) ++
      String.singleton (b64char ((b % 16) * 4)) ++ "="
  | a :: b :: c :: rest =>
      String.singleton (b64char (a / 4)) ++
      String.singleton (b64char ((a % 4) * 16 + b / 16)) ++
      String.singleton (b64char ((b % 16) * 4 + c / 64)) ++
      String.singleton (b64char (c % 64)) ++ base64Bytes rest

/-- `base64.b64encode(s.encode()).decode()`. -/
def b64encode (s : String) : String :=
  base64Bytes (s.toList.flatMap charUtf8Bytes)

/-! ## HTTP probe (`call_endpoint`, swagger_tester.py lines 303-353)

The network is an oracle `Probe`: it maps the wire request the `requests`
library would send to either a response or one of the three transport
failure kinds the source distinguishes. -/

/-- The request that actually goes on the wire. -/
structure HttpRequest where
  url : String
  method : String
  headers : List (String × String)
  body : Option JVal

/-- A response body as the server produced it: either valid JSON (so
`resp.json()` succeeds) or raw text. -/
inductive RespBody where
  | jsonContent : JVal → RespBody
  | textContent : String → RespBody

/-- A transport-level response. -/
structure HttpResp where
  status : Nat
  elapsed_ms : Nat
  headers : List (String × String)
  content : RespBody

/-- Outcome of one wire exchange: success or one of the three transport
failure kinds (`requests.exceptions.ConnectionError`, `Timeout`,
other `RequestException`). -/
inductive NetOutcome where
  | ok : HttpResp → NetOutcome
  | connError : NetOutcome
  | timeout : NetOutcome
  | otherError : String → NetOutcome

/-- Whether the outcome is a transport failure. -/
def NetOutcome.isFailure : NetOutcome → Bool
  | .ok _ => false
  | _ => true

/-- Deterministic network oracle. -/
abbrev Probe := HttpRequest → NetOutcome

/-- The structured result dict `call_endpoint` returns.  Keys the source
adds only on some paths are `Option`s (`none` = key absent). -/
structure ProbeResult where
  url : String
  method : String
  status_code : Option Nat := none
  response_time_ms : Option Nat := none
  is_json : Bool := false
  json_body : Option JVal := none
  body_preview : Option String := none
  error : Option String := none
  response_headers : Option (List (String × String)) := none
  request_headers : Option (List (String × String)) := none
  request_url : Option String := none
  request_method : Option String := none
  request_body : Option (Option JVal) := none
  body_full : Option String := none
  schema_validation : Option String := none

/-- Method dispatch of `call_endpoint` (lines 316-327): known methods go
out as themselves (body only for POST/PUT/PATCH, `json_body or {}`), any
other method string falls into the final `else` and goes out as a GET. -/
def wire_request (url method : String) (headers : List (String × String))
    (json_body : JVal) : HttpRequest :=
  if method = "GET" then ⟨url, "GET", headers, none⟩
  else if method = "POST" then
    ⟨url, "POST", headers, some (if json_body.truthy then json_body else .obj [])⟩
  else if method = "PUT" then
    ⟨url, "PUT", headers, some (if json_body.truthy then json_body else .obj [])⟩
  else if method = "DELETE" then ⟨url, "DELETE", headers, none⟩
  else if method = "PATCH" then
    ⟨url, "PATCH", headers, some (if json_body.truthy then json_body else .obj [])⟩
  else ⟨url, "GET", headers, none⟩

/-- `call_endpoint` (lines 303-353): one HTTP request, normalized into a
`ProbeResult`; transport failures are caught and recorded in `error` with
no `status_code`; total by construction, so it never raises past its
boundary. -/
def call_endpoint (url : String) (method : String)
    (headers : List (String × String)) (json_body : JVal) (timeout : Nat)
    (net : Probe) : ProbeResult :=
  let base : ProbeResult := { url := url, method := method }
  let req := wire_request url method headers json_body
  match net req with
  | .ok resp =>
      let withStatus := { base with
        status_code := some resp.status,
        response_time_ms := some resp.elapsed_ms,
        response_headers := some resp.headers,
        request_headers := some req.headers,
        request_url := some req.url,
        request_method := some req.method,
        request_body := some req.body }
      match resp.content with
      | .jsonContent j =>
          let body_str := json_dumps j
          { withStatus with
            is_json := true,
            json_body := some j,
            body_preview :=
              some ((body_str.take 2000) ++
                (if body_str.length > 2000 then "..." else "")),
            body_full := some body_str }
      | .textContent s =>
          { withStatus with
            is_json := false,
            body_preview := some (s.take 1000),
            body_full := some s }
  | .connError => { base with error := some "Connection refused or DNS failure" }
  | .timeout =>
      { base with error := some ("Timed out (>" ++ toString timeout ++ "s)") }
  | .otherError msg => { base with error := some msg }

/-! ## Contract parser (`parse_endpoints`, swagger_tester.py lines 100-211) -/

/-- Python `x is None` for the embedded values. -/
def JVal.isNull : JVal → Bool
  | .null => true
  | _ => false

/-- Python `j == "s"` between an embedded value and a string literal. -/
def JVal.eqStr (j : JVal) (s : String) : Bool :=
  match j with
  | .str t => t = s
  | _ => false

/-- Python `s in required_fields` membership of a string in a JSON list. -/
def jlistContainsStr (j : JVal) (s : String) : Bool :=
  match j with
  | .arr l => l.any (fun v => v.eqStr s)
  | _ => false

/-- Python `lst[0]` on a truthy value (only reached behind a truthiness
guard in the source; non-list truthy values are a malformed contract). -/
def enumFirst : JVal → JVal
  | .arr (x :: _) => x
  | .str s => .str (String.singleton s.toList.headI)
  | v => v

/-- String content of a parsed field that the engine uses as a dict key
(parameter names are strings in any well-formed contract). -/
def asName : JVal → String
  | .str s => s
  | v => v.pyStr

/-- One parsed parameter definition (the `param_info` dict,
lines 118-152 and 183-195). -/
structure ParamInfo where
  name : String
  in_loc : String
  required : JVal
  description : JVal
  example_val : JVal
  default : JVal
  type : JVal
  enum : JVal

/-- Truthiness of the `required` flag as the source tests it. -/
def ParamInfo.isRequired (p : ParamInfo) : Bool :=
  p.required.truthy

/-- The type-keyed fallback table for query/path parameters
(lines 143-150). -/
def type_defaults_query (ptype : JVal) : JVal :=
  if ptype.eqStr "string" then .str "test"
  else if ptype.eqStr "integer" then .str "1"
  else if ptype.eqStr "number" then .str "1.0"
  else if ptype.eqStr "boolean" then .str "true"
  else if ptype.eqStr "array" then .str "test"
  else .str "test"

/-- The type-keyed fallback table for body properties (line 194: no
`array` key, so arrays take the `.get` default `"test"` as well). -/
def type_defaults_body (ptype : JVal) : JVal :=
  if ptype.eqStr "string" then .str "test"
  else if ptype.eqStr "integer" then .str "1"
  else if ptype.eqStr "number" then .str "1.0"
  else if ptype.eqStr "boolean" then .str "true"
  else .str "test"

/-- Extraction of one parameter from the `parameters` array
(lines 117-152), including the example-resolution priority chain. -/
def extract_param (p : JVal) : ParamInfo :=
  let schema := p.getD "schema" (.obj [])
  let ptype := schema.getD "type" (.str "string")
  let pdefault := schema.getD "default" .null
  let penum := schema.getD "enum" .null
  let pexample :=
    match p.lookup "example" with
    | some v => v
    | none =>
        match schema.lookup "example" with
        | some v => v
        | none =>
            if ¬ pdefault.isNull then pdefault
            else if penum.truthy then enumFirst penum
            else type_defaults_query ptype
  { name := asName (p.getD "name" (.str "")),
    in_loc := asName (p.getD "in" (.str "query")),
    required := p.getD "required" (.bool false),
    description := p.getD "description" (.str ""),
    example_val := pexample,
    default := pdefault,
    type := ptype,
    enum := penum }

/-- Extraction of one request-body property into a parameter
(lines 183-195): `example or default` with Python truthiness, then the
body fallback table — no enum step. -/
def extract_body_param (required_fields : JVal) (p_name : String)
    (p_details : JVal) : ParamInfo :=
  let ptype := p_details.getD "type" (.str "string")
  let e := p_details.getD "example" .null
  let ex0 := if e.truthy then e else p_details.getD "default" .null
  { name := p_name,
    in_loc := "body",
    required := .bool (jlistContainsStr required_fields p_name),
    description := p_details.getD "description" (.str ""),
    type := ptype,
    example_val := if ¬ ex0.truthy then type_defaults_body ptype else ex0,
    default := p_details.getD "default" .null,
    enum := p_details.getD "enum" .null }

/-- Flattening of request-body properties into the parameter sequence
(lines 175-197): skip any property whose name matches an already
collected parameter, else append with `location = body`. -/
def flatten_body_props (params0 : List ParamInfo) (schema : JVal) :
    List ParamInfo :=
  if schema.truthy && (schema.getD "properties" .null).truthy then
    match schema.getD "properties" (.obj []) with
    | .obj props =>
        let required_fields := schema.getD "required" (.arr [])
        props.foldl (fun params kv =>
          if params.any (fun e => e.name = kv.1) then params
          else params ++ [extract_body_param required_fields kv.1 kv.2]) params0
    | _ => params0
  else params0

/-- One parsed endpoint definition (the dict appended at line 199). -/
structure Endpoint where
  group : String
  path : String
  method : String
  tags : JVal
  summary : JVal
  operation_id : JVal
  params : List ParamInfo
  request_body_schema : JVal
  response_schemas : JVal
  service_name : Option String := none
  base_url : Option String := none

/-- Response-schema extraction for one operation (lines 155-166). -/
def parse_response_schemas (details : JVal) : JVal :=
  match details.getD "responses" (.obj []) with
  | .obj rs =>
      .obj (rs.foldl (fun acc ckv =>
        let content := ckv.2.getD "content" (.obj [])
        let schema_ref :=
          match content.lookup "application/json" with
          | some cj => cj.getD "schema" (.obj [])
          | none => .null
        insertA acc ckv.1 (JVal.obj
          [("description", ckv.2.getD "description" (.str "")),
           ("schema", schema_ref)])) [])
  | _ => .obj []

/-- One operation object parsed into an `Endpoint` (the body of the inner
loop of `parse_endpoints`, lines 106-209). -/
def parse_operation (group_name path method : String) (details : JVal) :
    Endpoint :=
  let params_raw :=
    match details.getD "parameters" (.arr []) with
    | .arr l => l
    | _ => []
  let params := params_raw.map extract_param
  let req_body := details.getD "requestBody" (.obj [])
  let req_content := req_body.getD "content" (.obj [])
  let request_body_schema :=
    match req_content.lookup "application/json" with
    | some cj => cj.getD "schema" (.obj [])
    | none => .null
  { group := group_name,
    path := path,
    method := pyUpper method,
    tags := details.getD "tags" (.arr []),
    summary := details.getD "summary" (.str ""),
    operation_id := details.getD "operationId" (.str ""),
    params := flatten_body_props params request_body_schema,
    request_body_schema := request_body_schema,
    response_schemas := parse_response_schemas details }

/-- `parse_endpoints` (lines 100-211): every `(path, method)` pair whose
method is one of GET/POST/PUT/DELETE/PATCH becomes one endpoint. -/
def parse_endpoints (spec : JVal) (group_name : String) : List Endpoint :=
  match spec.getD "paths" (.obj []) with
  | .obj paths =>
      paths.foldl (fun endpoints pkv =>
        match pkv.2 with
        | .obj methods =>
            methods.foldl (fun eps mkv =>
              if pyLower mkv.1 ∈ ["get", "post", "put", "delete", "patch"] then
                eps ++ [parse_operation group_name pkv.1 mkv.1 mkv.2]
              else eps) endpoints
        | _ => endpoints) []
  | _ => []

/-! ## Request builder (`build_test_url`, swagger_tester.py lines 216-298) -/

/-- Python `s.rstrip("/")`. -/
def rstripSlash (s : String) : String :=
  ((s.toList.reverse.dropWhile (fun c => c = '/')).reverse).asString

/-- Membership `name in xs` behind a truthiness guard
(`if xs and name in xs`): `None` and the empty set are falsy. -/
def optSetHas (o : Option (List String)) (name : String) : Bool :=
  match o with
  | some l => l.contains name
  | none => false

/-- `build_test_url` (lines 216-298): builds `(full_url, json_body)` from
an endpoint definition plus overrides, a skip-set, an empty-set and an
inclusion filter.  Pure by construction. -/
def build_test_url (base_url : String) (endpoint : Endpoint)
    (param_overrides : Option (List (String × JVal)))
    (skip_params : Option (List String))
    (empty_params : Option (List String))
    (include_params : Option (List String)) :
    String × List (String × JVal) :=
  let step := fun (st : String × List (String × JVal)) (p : ParamInfo) =>
    let (path, query_params) := st
    let name := p.name
    if optSetHas skip_params name then st
    else if include_params.isSome
        && !(include_params.getD []).contains name
        && p.in_loc ≠ "path" then st
    else if p.in_loc = "path" then
      let val0 := if p.example_val.truthy then p.example_val.pyStr else "test"
      let val :=
        match param_overrides with
        | some ov =>
            if !ov.isEmpty then
              match ov.lookup name with
              | some v => v.pyStr
              | none => val0
            else val0
        | none => val0
      (pyReplace path ("\x7b" ++ name ++ "\x7d") val, query_params)
    else if p.in_loc = "query" then
      if optSetHas empty_params name then
        (path, insertA query_params name (.str ""))
      else
        match param_overrides with
        | some ov =>
            match ov.lookup name with
            | some v =>
                if ¬ v.isNull then (path, insertA query_params name v) else st
            | none =>
                if p.isRequired then
                  (path, insertA query_params name (.str
                    (JVal.pyStr (if p.example_val.truthy then p.example_val
                      else if p.default.truthy then p.default
                      else .str "test"))))
                else st
        | none =>
            if ¬ p.example_val.isNull then
              (path, insertA query_params name (.str p.example_val.pyStr))
            else if ¬ p.default.isNull then
              (path, insertA query_params name (.str p.default.pyStr))
            else st
    else st
  let (path, query_params) := endpoint.params.foldl step (endpoint.path, [])
  let full_url0 := rstripSlash base_url ++ path
  let full_url :=
    if ¬ query_params.isEmpty then full_url0 ++ "?" ++ urlencode query_params
    else full_url0
  let json_body : List (String × JVal) :=
    if endpoint.request_body_schema.truthy then
      let schema := endpoint.request_body_schema
      match schema.getD "properties" (.obj []) with
      | .obj props =>
          let required_body_fields := schema.getD "required" (.arr [])
          props.foldl (fun jb kv =>
            let name := kv.1
            let prop := kv.2
            if include_params.isSome
                && !(include_params.getD []).contains name then jb
            else
              match param_overrides with
              | some ov =>
                  match ov.lookup name with
                  | some v => if ¬ v.isNull then insertA jb name v else jb
                  | none =>
                      if jlistContainsStr required_body_fields name then
                        let e := prop.getD "example" .null
                        let val := if e.truthy then e
                          else prop.getD "default" .null
                        if ¬ val.isNull then insertA jb name val
                        else if (prop.getD "type" .null).eqStr "string" then
                          insertA jb name (.str "test")
                        else if (prop.getD "type" .null).eqStr "integer" then
                          insertA jb name (.int 1)
                        else jb
                      else jb
              | none =>
                  let e := prop.getD "example" .null
                  let val := if e.truthy then e else prop.getD "default" .null
                  if ¬ val.isNull then insertA jb name val
                  else if (prop.getD "type" .null).eqStr "string" then
                    insertA jb name (.str "test")
                  else if (prop.getD "type" .null).eqStr "integer" then
                    insertA jb name (.int 1)
                  else jb) []
      | _ => []
    else []
  (full_url, json_body)

/-- `validate_schema` (lines 355-375): shallow type check of a decoded
body against the declared 200-response schema. -/
def validate_schema (response_json : JVal) (schema_info : JVal) : String :=
  if ¬ schema_info.truthy then "N/A"
  else
    let expected_type := schema_info.getD "type" .null
    if ¬ expected_type.truthy then "N/A"
    else if expected_type.eqStr "array" &&
        !(match response_json with | .arr _ => true | _ => false) then
      "FAIL: Expected array, got object"
    else if expected_type.eqStr "object" &&
        !(match response_json with | .obj _ => true | _ => false) then
      "FAIL: Expected object, got list/primitive"
    else if expected_type.eqStr "integer" &&
        !(match response_json with
          | .int _ => true | .bool _ => true | _ => false) then
      "FAIL: Expected integer"
    else if expected_type.eqStr "string" &&
        !(match response_json with | .str _ => true | _ => false) then
      "FAIL: Expected string"
    else "PASS"

/-! ## Value pools and combination generator
(`run_combinatorial_tests`, swagger_tester.py lines 583-749) -/

/-- Engine configuration (the keys of `config.json` the tested functions
read). -/
structure TestConfig where
  timeout_seconds : Nat
  response_time_limit_ms : Nat
  auth_type : Option String := none
  auth_header : Option String := none
  gemini_api_key : Option String := none
  swagger_base_url : Option String := none

/-- A value in a parameter's pool: a string sample, a multi-value list of
samples, or the explicit absence sentinel (`None` in the source). -/
inductive PoolVal where
  | s : String → PoolVal
  | lst : List String → PoolVal
  | absent : PoolVal
deriving DecidableEq

/-- The Python object a pool value stands for, as handed to
`build_test_url` via `param_overrides`. -/
def PoolVal.toJVal : PoolVal → JVal
  | .s v => .str v
  | .lst l => .arr (l.map JVal.str)
  | .absent => .null

/-- Python `str(val)` of a pool value (used in combination display names).
-/
def PoolVal.pyStr (v : PoolVal) : String :=
  v.toJVal.pyStr

/-- `itertools.combinations(l, k)`: all length-`k` sublists of `l` in
lexicographic order of positions. -/
def combinations {α : Type} : List α → Nat → List (List α)
  | _, 0 => [[]]
  | [], _ + 1 => []
  | x :: xs, k + 1 =>
      (combinations xs k).map (fun c => x :: c) ++ combinations xs (k + 1)

/-- The dedup loop of lines 653-655: first occurrence wins. -/
def pydedupAux {α : Type} [DecidableEq α] : List α → List α → List α
  | seen, [] => seen
  | seen, c :: rest =>
      if seen.contains c then pydedupAux seen rest
      else pydedupAux (seen ++ [c]) rest

/-- Order-preserving deduplication (`seen` list of lines 653-655). -/
def pydedup {α : Type} [DecidableEq α] (l : List α) : List α :=
  pydedupAux [] l

/-- `p.get("example") or p.get("default") or "test"` (lines 610 and 666).
-/
def example_or_default (p : ParamInfo) : JVal :=
  if p.example_val.truthy then p.example_val
  else if p.default.truthy then p.default
  else .str "test"

/-- Sample collection for one included parameter (lines 622-641):
comma-split UI samples, the random fuzz value, boolean auto-coverage. -/
def collect_samples (p : ParamInfo)
    (base_overrides random_overrides : List (String × JVal)) : List String :=
  let ui_val := (base_overrides.lookup p.name).getD (JVal.str "")
  let s1 :=
    if ui_val.truthy then
      if strContains ui_val.pyStr "," then
        (pySplit ui_val.pyStr ',').map pyStrip
      else [ui_val.pyStr]
    else []
  let s2 := s1 ++
    (match random_overrides.lookup p.name with
     | some fv => if fv.truthy then [fv.pyStr] else []
     | none => [])
  if p.type.eqStr "boolean" then
    let t1 := if (s2.map pyLower).contains "true" then s2
      else s2 ++ ["true"]
    if (t1.map pyLower).contains "false" then t1 else t1 ++ ["false"]
  else s2

/-- Candidate construction (lines 643-651): the power-set expansion for
multi-value parameters (every non-empty subset, by increasing size, then
input order), plain samples otherwise. -/
def build_candidates (p : ParamInfo) (multi_params : List String)
    (all_samples : List String) : List PoolVal :=
  if multi_params.contains p.name then
    (List.range' 1 all_samples.length).flatMap
      (fun i => (combinations all_samples i).map PoolVal.lst)
  else all_samples.map PoolVal.s

/-- The deduplicated candidate list (`seen`) for one included parameter.
-/
def pool_seen (p : ParamInfo) (multi_params : List String)
    (base_overrides random_overrides : List (String × JVal)) :
    List PoolVal :=
  pydedup (build_candidates p multi_params
    (collect_samples p base_overrides random_overrides))

/-- Final pool construction for one parameter (lines 604-673). -/
def build_pool (p : ParamInfo) (include_params multi_params : List String)
    (base_overrides random_overrides : List (String × JVal)) :
    List PoolVal :=
  if ¬ include_params.contains p.name then
    if p.isRequired then [.s (example_or_default p).pyStr] else [.absent]
  else if ¬ (pool_seen p multi_params base_overrides
      random_overrides).isEmpty then
    if ¬ p.isRequired && ¬ (pool_seen p multi_params base_overrides
        random_overrides).contains .absent then
      pool_seen p multi_params base_overrides random_overrides ++ [.absent]
    else pool_seen p multi_params base_overrides random_overrides
  else if p.isRequired then [.s (example_or_default p).pyStr, .absent]
  else [.absent]

/-- `parameter_pools`: name → pool, built in parameter order. -/
def build_all_pools (params : List ParamInfo)
    (include_params multi_params : List String)
    (base_overrides random_overrides : List (String × JVal)) :
    List (String × List PoolVal) :=
  params.foldl (fun acc p =>
    insertA acc p.name
      (build_pool p include_params multi_params base_overrides
        random_overrides)) []

/-- `baseline_values`: name → `pool[0]`, built in parameter order. -/
def build_baselines (params : List ParamInfo)
    (include_params multi_params : List String)
    (base_overrides random_overrides : List (String × JVal)) :
    List (String × PoolVal) :=
  params.foldl (fun acc p =>
    insertA acc p.name
      ((build_pool p include_params multi_params base_overrides
        random_overrides).headD .absent)) []

/-- `itertools.product`, rightmost factor varying fastest. -/
def pyProduct {α : Type} : List (List α) → List (List α)
  | [] => [[]]
  | pool :: rest =>
      pool.flatMap (fun x => (pyProduct rest).map (fun c => x :: c))

/-- `include_params or [p["name"] for p in endpoint["params"]]`
(line 596). -/
def comb_include (endpoint : Endpoint)
    (include_params : Option (List String)) : List String :=
  match include_params with
  | some l => if l.isEmpty then endpoint.params.map (·.name) else l
  | none => endpoint.params.map (·.name)

/-- Resolved `parameter_pools` for a combinatorial run. -/
def comb_pools (endpoint : Endpoint)
    (base_overrides : Option (List (String × JVal)))
    (multi_params : Option (List String))
    (include_params : Option (List String))
    (random_overrides : Option (List (String × JVal))) :
    List (String × List PoolVal) :=
  build_all_pools endpoint.params (comb_include endpoint include_params)
    (multi_params.getD []) (base_overrides.getD [])
    (random_overrides.getD [])

/-- Resolved `baseline_values` for a combinatorial run. -/
def comb_baselines (endpoint : Endpoint)
    (base_overrides : Option (List (String × JVal)))
    (multi_params : Option (List String))
    (include_params : Option (List String))
    (random_overrides : Option (List (String × JVal))) :
    List (String × PoolVal) :=
  build_baselines endpoint.params (comb_include endpoint include_params)
    (multi_params.getD []) (base_overrides.getD [])
    (random_overrides.getD [])

/-- `all_combos_dicts` (lines 676-702): the deterministic enumeration —
Cartesian product of the main-pool pools over the baseline dict, followed
by the isolated-parameter sweeps (skipping the baseline duplicate). -/
def allCombos (endpoint : Endpoint)
    (base_overrides : Option (List (String × JVal)))
    (multi_params : Option (List String))
    (include_params : Option (List String))
    (random_overrides : Option (List (String × JVal)))
    (isolated_params : Option (List String)) :
    List (List (String × PoolVal)) :=
  let inc := comb_include endpoint include_params
  let iso := isolated_params.getD []
  let pools := comb_pools endpoint base_overrides multi_params
    include_params random_overrides
  let baselines := comb_baselines endpoint base_overrides multi_params
    include_params random_overrides
  let main_pool_names := inc.filter (fun n => ¬ iso.contains n)
  let main_pools := main_pool_names.map (fun n => (pools.lookup n).getD [])
  let mainDicts := (pyProduct main_pools).map (fun combo =>
    (main_pool_names.zip combo).foldl (fun d kv => insertA d kv.1 kv.2)
      baselines)
  let isoDicts := iso.flatMap (fun n =>
    match pools.lookup n, baselines.lookup n with
    | some full_pool, some baseline_v =>
        (full_pool.filter (fun v => v ≠ baseline_v)).map
          (fun v => insertA baselines n v)
    | _, _ => [])
  mainDicts ++ isoDicts

/-- The display name of one combination (lines 720-728). -/
def comb_display_name (include_params : List String)
    (baselines : List (String × PoolVal))
    (test_params : List (String × PoolVal)) : String :=
  let display_parts := test_params.foldr (fun kv acc =>
    if include_params.contains kv.1 && (baselines.lookup kv.1 ≠ some kv.2)
    then
      (match kv.2 with
       | .lst l => kv.1 ++ "=[" ++ String.intercalate "," l ++ "]"
       | v => kv.1 ++ "=" ++ v.pyStr) :: acc
    else acc) []
  if ¬ display_parts.isEmpty then String.intercalate ", " display_parts
  else "Baseline (+)"

/-- One result row of the combinatorial phase (lines 734-742). -/
structure CombEntry where
  combination : String
  status_code : Option Nat
  passed : Bool
  body_preview : String
  request_url : String
  request_body : List (String × JVal)
  params_used : List (String × PoolVal)

/-- The record `run_combinatorial_tests` returns (lines 744-749). -/
structure CombResult where
  results : List CombEntry
  total_count : Nat
  offset : Nat
  limit : Nat

/-- One combinatorial test case (lines 715-742): build the request from
the combination dict, probe, record.  The `passed` field evaluates
`200 <= res["status_code"] < 300` (line 737): when a transport failure
left `status_code` as `None`, that comparison raises `TypeError`, so no
result row materializes (`none`) — but the probe already went on the
wire. -/
def run_comb_case (endpoint : Endpoint) (base_url : String)
    (headers : List (String × String)) (config : TestConfig)
    (include_params : List String) (baselines : List (String × PoolVal))
    (net : Probe) (test_params : List (String × PoolVal)) :
    Option CombEntry × List HttpRequest :=
  let overrides := test_params.map (fun kv => (kv.1, kv.2.toJVal))
  let tb := build_test_url base_url endpoint (some overrides) none none none
  let test_url := tb.1
  let test_body := tb.2
  let res := call_endpoint test_url endpoint.method headers
    (JVal.obj test_body) config.timeout_seconds net
  (match res.status_code with
   | some c =>
       some { combination :=
                comb_display_name include_params baselines test_params,
              status_code := some c,
              passed := 200 ≤ c && c < 300,
              body_preview := res.body_preview.getD "",
              request_url := test_url,
              request_body := test_body,
              params_used := test_params }
   | none => none,
   [wire_request test_url endpoint.method headers (JVal.obj test_body)])

/-- The result-collection loop of lines 715-742: one case after another;
the first case whose `passed` computation raises (transport failure, see
`run_comb_case`) aborts the loop — its request is already in the log,
nothing is returned past it. -/
def run_comb_loop (endpoint : Endpoint) (base_url : String)
    (headers : List (String × String)) (config : TestConfig)
    (include_params : List String) (baselines : List (String × PoolVal))
    (net : Probe) : List (List (String × PoolVal)) →
    Option (List CombEntry) × List HttpRequest
  | [] => (some [], [])
  | tp :: rest =>
      let c := run_comb_case endpoint base_url headers config include_params
        baselines net tp
      match c.1 with
      | none => (none, c.2)
      | some e =>
          let r := run_comb_loop endpoint base_url headers config
            include_params baselines net rest
          (r.1.map (fun es => e :: es), c.2 ++ r.2)

/-- `run_combinatorial_tests` (lines 583-749), also returning the list of
wire requests it issued.  `none` models the `TypeError` the source raises
at line 737 when a probed combination suffers a transport failure: the
windowed record is then never returned and the exception propagates to
the caller. -/
def run_combinatorial_tests (endpoint : Endpoint) (base_url : String)
    (headers : List (String × String)) (config : TestConfig)
    (base_overrides : Option (List (String × JVal))) (mode : String)
    (offset limit : Nat) (multi_params : Option (List String))
    (include_params : Option (List String))
    (random_overrides : Option (List (String × JVal)))
    (isolated_params : Option (List String)) (net : Probe) :
    Option CombResult × List HttpRequest :=
  if endpoint.params.isEmpty then
    (some { results := [], total_count := 0, offset := 0, limit := limit },
     [])
  else
    let inc := comb_include endpoint include_params
    let baselines := comb_baselines endpoint base_overrides multi_params
      include_params random_overrides
    let all := allCombos endpoint base_overrides multi_params
      include_params random_overrides isolated_params
    let total_count := all.length
    let subset := if mode = "minimal" then all.take 1
      else (all.drop offset).take limit
    let lp := run_comb_loop endpoint base_url headers config inc baselines
      net subset
    (lp.1.map (fun es =>
       { results := es,
         total_count := total_count,
         offset := offset,
         limit := limit }),
     lp.2)

/-! ## Test phases (swagger_tester.py lines 380-581 and 776-887) -/

/-- `run_baseline` (lines 380-399): probe with auth and all parameters,
then attach the shallow schema check. -/
def run_baseline (url method : String) (headers : List (String × String))
    (config : TestConfig) (json_body : JVal) (endpoint_def : Option Endpoint)
    (net : Probe) : ProbeResult × List HttpRequest :=
  let result := call_endpoint url method headers json_body
    config.timeout_seconds net
  let schema_status :=
    match endpoint_def with
    | some ep =>
        if result.is_json && result.status_code = some 200 then
          let ok_schema :=
            (ep.response_schemas.getD "200" (.obj [])).getD "schema" .null
          if ok_schema.truthy then
            validate_schema (result.json_body.getD .null) ok_schema
          else "N/A"
        else "N/A"
    | none => "N/A"
  ({ result with schema_validation := some schema_status },
   [wire_request url method headers json_body])

/-- `run_auth_check` (lines 402-412): the same request with no auth
headers. -/
def run_auth_check (url method : String) (config : TestConfig)
    (net : Probe) : ProbeResult × List HttpRequest :=
  (call_endpoint url method [] .null config.timeout_seconds net,
   [wire_request url method [] .null])

/-- A query or body parameter eligible for removal/empty tests
(lines 420-428 and 460-468). -/
structure RemovableParam where
  name : String
  required : JVal

/-- The removable/emptyable parameter list: query parameters plus
request-body properties. -/
def removable_params (endpoint : Endpoint) : List RemovableParam :=
  (endpoint.params.filter (fun p => p.in_loc = "query")).map
    (fun p => ⟨p.name, p.required⟩) ++
  (if endpoint.request_body_schema.truthy then
    match endpoint.request_body_schema.getD "properties" (.obj []) with
    | .obj props =>
        props.map (fun kv =>
          ⟨kv.1, .bool (jlistContainsStr
            (endpoint.request_body_schema.getD "required" (.arr [])) kv.1)⟩)
    | _ => []
   else [])

/-- One row of the required-parameter detection phase (lines 448-453). -/
structure ParamRemovalResult where
  param : String
  required_by_spec : JVal
  required_by_test : Bool
  status_without : Option Nat

/-- `run_param_removal` (lines 415-455): drop each query/body parameter,
keep the rest at baseline; non-200 or transport error labels it required.
-/
def run_param_removal (endpoint : Endpoint) (base_url : String)
    (headers : List (String × String)) (config : TestConfig)
    (base_overrides : Option (List (String × JVal)))
    (include_params : Option (List String)) (net : Probe) :
    List ParamRemovalResult × List HttpRequest :=
  let audited := (removable_params endpoint).filter (fun p =>
    !(include_params.isSome && !(include_params.getD []).contains p.name))
  let items := audited.map (fun p =>
    let tb := build_test_url base_url endpoint
      base_overrides (some [p.name]) none include_params
    let test_url := tb.1
    let test_body := tb.2
    let result := call_endpoint test_url endpoint.method headers
      (JVal.obj test_body) config.timeout_seconds net
    let is_required := result.status_code ≠ some 200 || result.error.isSome
    ((⟨p.name, p.required, is_required, result.status_code⟩ :
        ParamRemovalResult),
     [wire_request test_url endpoint.method headers (JVal.obj test_body)]))
  (items.map Prod.fst, items.flatMap Prod.snd)

/-- One row of the empty-value phase (lines 488-492). -/
structure EmptyValueResult where
  param : String
  status_empty : Option Nat
  graceful : Bool

/-- `run_empty_values` (lines 458-494): force each query/body parameter to
the empty string; 200/400/422 is graceful. -/
def run_empty_values (endpoint : Endpoint) (base_url : String)
    (headers : List (String × String)) (config : TestConfig)
    (base_overrides : Option (List (String × JVal)))
    (include_params : Option (List String)) (net : Probe) :
    List EmptyValueResult × List HttpRequest :=
  let audited := (removable_params endpoint).filter (fun p =>
    !(include_params.isSome && !(include_params.getD []).contains p.name))
  let items := audited.map (fun p =>
    let tb := build_test_url base_url endpoint
      base_overrides none (some [p.name]) include_params
    let test_url := tb.1
    let test_body := tb.2
    let result := call_endpoint test_url endpoint.method headers
      (JVal.obj test_body) config.timeout_seconds net
    let ok := result.status_code = some 200 ∨ result.status_code = some 400 ∨
      result.status_code = some 422
    ((⟨p.name, result.status_code, ok⟩ : EmptyValueResult),
     [wire_request test_url endpoint.method headers (JVal.obj test_body)]))
  (items.map Prod.fst, items.flatMap Prod.snd)

/-- One row of the negative-method phase (lines 513-518). -/
structure NegativeResult where
  test : String
  status_code : Option Nat
  passed : Bool
  response : Option String

/-- `run_negative_tests` (lines 497-520): replay with a disallowed method
(`DELETE` for GET endpoints, else `PATCH`); 405/403/404/501 passes. -/
def run_negative_tests (endpoint : Endpoint) (base_url : String)
    (headers : List (String × String)) (config : TestConfig) (net : Probe) :
    List NegativeResult × List HttpRequest :=
  let bad_method := if endpoint.method = "GET" then "DELETE" else "PATCH"
  let tb := build_test_url base_url endpoint none none none none
  let test_url := tb.1
  let test_body := tb.2
  let result := call_endpoint test_url bad_method headers (JVal.obj test_body)
    config.timeout_seconds net
  let passed := result.status_code = some 405 ∨ result.status_code = some 403 ∨
    result.status_code = some 404 ∨ result.status_code = some 501
  ([⟨"Invalid Method (" ++ bad_method ++ ")", result.status_code, passed,
      result.body_preview⟩],
   [wire_request test_url bad_method headers (JVal.obj test_body)])

/-- One row of the path-fuzzing phase (lines 546-552). -/
structure PathFuzzResult where
  param : String
  value : String
  status_code : Option Nat
  result : String
  response_preview : Option String

/-- The fixed fuzz vocabulary of line 528. -/
def fuzz_values : List String :=
  ["null", "undefined", "NaN", "0", "-1", "999999999", "INVALID_PATH"]

/-- `run_path_fuzzing` (lines 523-553): substitute each fuzz value into
each path parameter; 404/400/422 passes, 200 is a warning. -/
def run_path_fuzzing (endpoint : Endpoint) (base_url : String)
    (headers : List (String × String)) (config : TestConfig)
    (base_overrides : Option (List (String × JVal))) (net : Probe) :
    List PathFuzzResult × List HttpRequest :=
  let path_params := endpoint.params.filter (fun p => p.in_loc = "path")
  let items := path_params.flatMap (fun p =>
    fuzz_values.map (fun val =>
      let overrides := insertA (base_overrides.getD []) p.name (.str val)
      let tb := build_test_url base_url endpoint (some overrides) none none
        none
      let test_url := tb.1
      let test_body := tb.2
      let res := call_endpoint test_url endpoint.method headers
        (JVal.obj test_body) config.timeout_seconds net
      let status0 :=
        if res.status_code = some 404 ∨ res.status_code = some 400 ∨
            res.status_code = some 422 then "PASS" else "FAIL"
      let status :=
        if res.status_code = some 200 then "WARN (200 OK?)" else status0
      ((⟨p.name, val, res.status_code, status, res.body_preview⟩ :
          PathFuzzResult),
       [wire_request test_url endpoint.method headers (JVal.obj test_body)])))
  (items.map Prod.fst, items.flatMap Prod.snd)

/-- One row of the enum-validation phase (lines 574-580). -/
structure EnumResult where
  param : String
  value : String
  status_code : Option Nat
  passed : Bool
  response : Option String

/-- `run_enum_testing` (lines 556-581): send a value guaranteed outside
each declared enum; 400/422 passes. -/
def run_enum_testing (endpoint : Endpoint) (base_url : String)
    (headers : List (String × String)) (config : TestConfig)
    (base_overrides : Option (List (String × JVal))) (net : Probe) :
    List EnumResult × List HttpRequest :=
  let enum_params := endpoint.params.filter (fun p => p.enum.truthy)
  let items := enum_params.map (fun p =>
    let invalid_val := "INVALID_ENUM_VALUE"
    let overrides := insertA (base_overrides.getD []) p.name (.str invalid_val)
    let tb := build_test_url base_url endpoint (some overrides) none none none
    let test_url := tb.1
    let test_body := tb.2
    let res := call_endpoint test_url endpoint.method headers
      (JVal.obj test_body) config.timeout_seconds net
    let passed := res.status_code = some 400 ∨ res.status_code = some 422
    ((⟨p.name, invalid_val, res.status_code, passed, res.body_preview⟩ :
        EnumResult),
     [wire_request test_url endpoint.method headers (JVal.obj test_body)]))
  (items.map Prod.fst, items.flatMap Prod.snd)

/-- `find_in_json` (lines 791-799): recursive case-insensitive search for
a sent value anywhere in the response. -/
def find_in_json (tgt : JVal) (data : JVal) : Bool :=
  if pyLower tgt.pyStr = pyLower data.pyStr then true
  else
    match data with
    | .obj fs => fs.attach.any (fun x => find_in_json tgt x.1.2)
    | .arr l => l.attach.any (fun x => find_in_json tgt x.1)
    | _ => false
decreasing_by
  · obtain ⟨⟨a, b⟩, hmem⟩ := x
    have := List.sizeOf_lt_of_mem hmem
    simp at this ⊢
    omega
  · have := List.sizeOf_lt_of_mem x.2; simp at this ⊢; omega

/-- The sensitive-field vocabulary of line 812. -/
def sensitive_keywords : List String :=
  ["password", "secret", "api_key", "access_token", "hash", "private_key"]

/-- `run_logic_checks` (lines 776-817): echo check of every sent value
against the baseline body, then the sensitive-keyword scan.  Pure. -/
def run_logic_checks (baseline_res : ProbeResult)
    (overrides : Option (List (String × JVal)))
    (json_body : List (String × JVal)) : List String :=
  if ¬ (baseline_res.json_body.getD .null).truthy then []
  else
    let sent_data := updateAll
      (match overrides with
       | some ov => if ov.isEmpty then [] else ov
       | none => []) json_body
    let response_json := baseline_res.json_body.getD .null
    let echo := sent_data.flatMap (fun kv =>
      if ¬ kv.2.isNull && kv.2.pyStr.length > 1 then
        if find_in_json kv.2 response_json then
          ["Logic: \x60" ++ kv.1 ++ "=" ++ kv.2.pyStr ++
            "\x60 correctly ECHOED in response."]
        else
          ["LOGIC WARN: Sent field \x60" ++ kv.1 ++ "=" ++ kv.2.pyStr ++
            "\x60 NOT found in response."]
      else [])
    let body_str := pyLower (baseline_res.body_full.getD "")
    let sensitive := sensitive_keywords.flatMap (fun kw =>
      if strContains body_str ("\x22" ++ kw ++ "\x22") ||
          strContains body_str ("\x27" ++ kw ++ "\x27") then
        ["SECURITY: Response contains sensitive keyword \x60" ++ kw ++
          "\x60!"]
      else [])
    echo ++ sensitive

/-- `find_field_selectors` (lines 820-823). -/
def find_field_selectors (endpoint : Endpoint) : List ParamInfo :=
  endpoint.params.filter (fun p =>
    ["fields", "select", "required_fields", "include", "exclude"].any
      (fun k => strContains (pyLower p.name) k))

/-- `get_keys` (lines 856-859 / 867-870). -/
def get_keys : JVal → List String
  | .obj fs => fs.map Prod.fst
  | .arr (x :: _) =>
      match x with
      | .obj fs => fs.map Prod.fst
      | _ => []
  | _ => []

/-- Subset probe record of the field-progression phase (lines 861-865). -/
structure FieldSubsetResult where
  value : String
  status_code : Option Nat
  keys : List String

/-- One row of the field-progression phase (lines 872-877). -/
structure FieldProgressionResult where
  param : String
  empty_status : Option Nat
  empty_keys : List String
  subset : Option FieldSubsetResult

/-- `run_field_progression_test` (lines 826-879): probe each selector
parameter forced empty, and with only its first comma-joined element. -/
def run_field_progression_test (endpoint : Endpoint) (base_url : String)
    (headers : List (String × String)) (config : TestConfig)
    (base_overrides : Option (List (String × JVal))) (net : Probe) :
    List FieldProgressionResult × List HttpRequest :=
  let items := (find_field_selectors endpoint).map (fun s =>
    let cv0 : JVal :=
      match base_overrides with
      | some bo => if bo.isEmpty then .null else (bo.lookup s.name).getD .null
      | none => .null
    let current_val :=
      if ¬ cv0.truthy then
        if s.example_val.truthy then s.example_val else s.default
      else cv0
    let overrides_empty := insertA (base_overrides.getD []) s.name (.str "")
    let ub1 := build_test_url base_url endpoint (some overrides_empty)
      none none none
    let u1 := ub1.1
    let b1 := ub1.2
    let r1 := call_endpoint u1 endpoint.method headers (JVal.obj b1)
      config.timeout_seconds net
    let subPart :=
      if current_val.truthy && strContains current_val.pyStr "," then
        let single_field := pyStrip ((pySplit current_val.pyStr ',').headD "")
        let overrides_sub := insertA (base_overrides.getD []) s.name
          (.str single_field)
        let ub2 := build_test_url base_url endpoint (some overrides_sub)
          none none none
        let u2 := ub2.1
        let b2 := ub2.2
        let r2 := call_endpoint u2 endpoint.method headers (JVal.obj b2)
          config.timeout_seconds net
        (some (⟨single_field, r2.status_code,
            get_keys (r2.json_body.getD .null)⟩ : FieldSubsetResult),
         [wire_request u2 endpoint.method headers (JVal.obj b2)])
      else (none, [])
    ((⟨s.name, r1.status_code, get_keys (r1.json_body.getD .null),
        subPart.1⟩ : FieldProgressionResult),
     wire_request u1 endpoint.method headers (JVal.obj b1) :: subPart.2))
  (items.map Prod.fst, items.flatMap Prod.snd)

/-! ## The per-endpoint pipeline
(`test_single_endpoint`, swagger_tester.py lines 1566-1740) -/

/-- The `special_auth_results` dict (lines 1650-1690). -/
structure SpecialAuthResults where
  token_only : Option ProbeResult := none
  creds_only : Option ProbeResult := none
  invalid_token : Option ProbeResult := none

/-- A granular fuzz probe with its parameter context attached
(lines 1643-1646). -/
structure FuzzTestResult where
  res : ProbeResult
  param : String
  value : JVal

/-- The per-endpoint result record.  `Option` fields model dict keys that
are present only on one of the two return paths (`none` = key absent):
the early-exit record of lines 1605-1613 carries only `baseline`, the
empty phase lists, `granular_fuzz`, `auth_findings` and `ai_analysis`;
the full record of lines 1713-1729 carries the phase results and no
`granular_fuzz`/`auth_findings` keys. -/
structure TestRecord where
  endpoint : Option Endpoint := none
  test_url : Option String := none
  baseline : ProbeResult
  auth_test : Option ProbeResult := none
  special_auth : Option SpecialAuthResults := none
  param_results : Option (List ParamRemovalResult) := none
  empty_results : Option (List EmptyValueResult) := none
  negative_results : Option (List NegativeResult) := none
  fuzz_test_results : Option (List FuzzTestResult) := none
  path_fuzz_results : Option (List PathFuzzResult) := none
  enum_results : List EnumResult := []
  combinatorial_result : CombResult
  logic_findings : List String := []
  granular_fuzz : Option (List FuzzTestResult) := none
  auth_findings : Option (List String) := none
  field_progression : Option (List FieldProgressionResult) := none
  ai_analysis : Option String := none

/-- Python `str(x)` of an optional status code (`None` prints as such). -/
def optNatPyStr : Option Nat → String
  | some n => toString n
  | none => "None"

/-- `endpoint.get("base_url") or config.get("swagger_base_url", "")`
(line 1571). -/
def tse_base_url (endpoint : Endpoint) (config : TestConfig) : String :=
  match endpoint.base_url with
  | some s => if s ≠ "" then s else config.swagger_base_url.getD ""
  | none => config.swagger_base_url.getD ""

/-- The HTTP Basic header branch of lines 1584-1589. -/
def tse_basic_headers (username password : Option String) :
    List (String × String) :=
  match username, password with
  | some u, some pw =>
      if u ≠ "" && pw ≠ "" then
        [("Authorization", "Basic " ++ b64encode (u ++ ":" ++ pw))]
      else []
  | _, _ => []

/-- Auth header preparation (lines 1573-1589): bearer-style token with
prefix stripping, else HTTP Basic credentials, else none. -/
def tse_auth_headers (config : TestConfig) (auth_token : Option String)
    (username password : Option String) : List (String × String) :=
  match auth_token with
  | some tok0 =>
      if tok0 ≠ "" then
        let tok1 := pyStrip tok0
        let auth_type := config.auth_type.getD "Bearer"
        let auth_header_key := config.auth_header.getD "Authorization"
        let tok2 :=
          if pyStartsWith (pyLower tok1) (pyLower auth_type ++ " ") then
            pyStrip (tok1.drop (auth_type.length + 1))
          else tok1
        [(auth_header_key, auth_type ++ " " ++ tok2)]
      else tse_basic_headers username password
  | none => tse_basic_headers username password

/-- Merging custom overrides into the baseline overrides
(lines 1591-1595). -/
def tse_param_overrides1
    (param_overrides custom_overrides : Option (List (String × JVal))) :
    Option (List (String × JVal)) :=
  match custom_overrides with
  | some c =>
      if ¬ c.isEmpty then some (updateAll (param_overrides.getD []) c)
      else param_overrides
  | none => param_overrides

/-- The Baseline probe of `test_single_endpoint` (lines 1596-1599): the
request built from the merged overrides, probed with the prepared auth
headers. -/
def tse_baseline (endpoint : Endpoint) (config : TestConfig)
    (auth_token : Option String) (username password : Option String)
    (param_overrides custom_overrides : Option (List (String × JVal)))
    (include_params : Option (List String)) (net : Probe) :
    ProbeResult × List HttpRequest :=
  let base_url := tse_base_url endpoint config
  let auth_headers := tse_auth_headers config auth_token username password
  let param_overrides1 := tse_param_overrides1 param_overrides
    custom_overrides
  let tb := build_test_url base_url endpoint param_overrides1 none none
    include_params
  run_baseline tb.1 endpoint.method auth_headers config (JVal.obj tb.2)
    (some endpoint) net

/-- `test_single_endpoint` (lines 1566-1740): the full per-endpoint
pipeline, returning the result record and every wire request issued, in
order.  If the baseline probe returns 401 the pipeline halts after the
baseline (lines 1602-1613).  `none` models the `TypeError` the
combinatorial phase raises on a transport-failing probe (line 737): the
exception propagates out of `test_single_endpoint`, the record is never
built, and the log stops at the crashing probe. -/
def test_single_endpoint (endpoint : Endpoint) (config : TestConfig)
    (auth_token : Option String) (username password : Option String)
    (param_overrides random_overrides custom_overrides :
      Option (List (String × JVal)))
    (run_ai : Bool) (combinatorial_mode : String)
    (comb_offset comb_limit : Nat)
    (multi_params include_params isolated_params : Option (List String))
    (net : Probe) (gemini : String → String) :
    Option TestRecord × List HttpRequest :=
  let base_url := tse_base_url endpoint config
  let auth_headers := tse_auth_headers config auth_token username password
  let param_overrides1 := tse_param_overrides1 param_overrides
    custom_overrides
  let tb := build_test_url base_url endpoint param_overrides1 none none
    include_params
  let test_url := tb.1
  let json_body := tb.2
  let bl := tse_baseline endpoint config auth_token username password
    param_overrides custom_overrides include_params net
  let baseline := bl.1
  let base_log := bl.2
  if baseline.status_code = some 401 then
    (some { baseline := baseline,
            enum_results := [],
            combinatorial_result :=
              { results := [], total_count := 0, offset := comb_offset,
                limit := comb_limit },
            logic_findings := [],
            granular_fuzz := some [],
            auth_findings := some [],
            ai_analysis :=
              if run_ai then
                some "Authentication failed (401). Please check your token/credentials."
              else none },
     base_log)
  else
    let ng := run_negative_tests endpoint base_url auth_headers config net
    let neg_results := ng.1
    let neg_log := ng.2
    let pf := run_path_fuzzing endpoint base_url auth_headers config
      param_overrides1 net
    let path_fuzz_results := pf.1
    let pf_log := pf.2
    let en := run_enum_testing endpoint base_url auth_headers config
      param_overrides1 net
    let enum_results := en.1
    let enum_log := en.2
    let cb := run_combinatorial_tests endpoint base_url auth_headers config
      param_overrides1 combinatorial_mode comb_offset comb_limit multi_params
      include_params random_overrides isolated_params net
    match cb.1 with
    | none => (none, base_log ++ neg_log ++ pf_log ++ enum_log ++ cb.2)
    | some combinatorial_result =>
    let comb_log := cb.2
    let logic_findings := run_logic_checks baseline param_overrides1
      json_body
    let fuzz_items :=
      match random_overrides with
      | some ro =>
          if ro.isEmpty then []
          else ro.map (fun (kv : String × JVal) =>
            let current_overrides :=
              insertA (param_overrides1.getD []) kv.1 kv.2
            let fb := build_test_url base_url endpoint
              (some current_overrides) none none none
            let fuzz_url := fb.1
            let fuzz_body := fb.2
            let res := call_endpoint fuzz_url endpoint.method auth_headers
              (JVal.obj fuzz_body) config.timeout_seconds net
            ((⟨res, kv.1, kv.2⟩ : FuzzTestResult),
             [wire_request fuzz_url endpoint.method auth_headers
               (JVal.obj fuzz_body)]))
      | none => []
    let fuzz_results_list := fuzz_items.map Prod.fst
    let fuzz_log := fuzz_items.flatMap Prod.snd
    let param_names := endpoint.params.map (·.name)
    let has_creds := param_names.contains "username" ||
      param_names.contains "password"
    let sa :=
      if has_creds then
        let tob := build_test_url base_url endpoint param_overrides1
          (some ["username", "password"]) none none
        let token_only_res := call_endpoint tob.1 endpoint.method
          auth_headers (JVal.obj tob.2) config.timeout_seconds net
        let cr := build_test_url base_url endpoint param_overrides1 none none
          none
        let creds_res := call_endpoint cr.1 endpoint.method []
          (JVal.obj cr.2) config.timeout_seconds net
        (creds_res,
         ({ token_only := some token_only_res,
            creds_only := some creds_res } : SpecialAuthResults),
         [wire_request tob.1 endpoint.method auth_headers (JVal.obj tob.2),
          wire_request cr.1 endpoint.method [] (JVal.obj cr.2)])
      else
        let ac := run_auth_check test_url endpoint.method config net
        let auth_header_key := config.auth_header.getD "Authorization"
        let bad_token_header := [(auth_header_key, "Bearer invalid_token_12345")]
        let invalid_auth_res := call_endpoint test_url endpoint.method
          bad_token_header .null config.timeout_seconds net
        (ac.1,
         ({ token_only := some baseline,
            invalid_token := some invalid_auth_res } : SpecialAuthResults),
         ac.2 ++ [wire_request test_url endpoint.method bad_token_header
           .null])
    let auth_result := sa.1
    let special_auth_results := sa.2.1
    let auth_log := sa.2.2
    let query_params := endpoint.params.filter (fun p => p.in_loc = "query")
    let pe :=
      if ¬ query_params.isEmpty then
        let pr := run_param_removal endpoint base_url auth_headers config
          param_overrides1 include_params net
        let er := run_empty_values endpoint base_url auth_headers config
          param_overrides1 include_params net
        (pr.1, er.1, pr.2 ++ er.2)
      else ([], [], [])
    let param_results := pe.1
    let empty_results := pe.2.1
    let pq_log := pe.2.2
    let fp := run_field_progression_test endpoint base_url auth_headers
      config param_overrides1 net
    let field_progression := fp.1
    let fp_log := fp.2
    let ai_analysis :=
      if run_ai then
        let summary0 := "Baseline: " ++ optNatPyStr baseline.status_code ++
          ", Time: " ++ optNatPyStr baseline.response_time_ms ++ "ms\n"
        let summary_text :=
          match baseline.body_preview with
          | some bp =>
              if bp ≠ "" then
                summary0 ++ "Response: " ++ bp.take 500 ++ "\n"
              else summary0
          | none => summary0
        let prompt := "Analyze this API endpoint: " ++ endpoint.method ++
          " " ++ endpoint.path ++ "\n\n" ++ summary_text ++
          "\n\nIs it working correctly?"
        some (gemini prompt)
      else none
    (some { endpoint := some endpoint,
            test_url := some test_url,
            baseline := baseline,
            auth_test := some auth_result,
            special_auth := some special_auth_results,
            param_results := some param_results,
            empty_results := some empty_results,
            negative_results := some neg_results,
            fuzz_test_results := some fuzz_results_list,
            path_fuzz_results := some path_fuzz_results,
            enum_results := enum_results,
            combinatorial_result := combinatorial_result,
            logic_findings := logic_findings,
            field_progression := some field_progression,
            ai_analysis := ai_analysis },
     base_log ++ neg_log ++ pf_log ++ enum_log ++ comb_log ++ fuzz_log ++
       auth_log ++ pq_log ++ fp_log)

/-! ## The `/api/run-test` route (`run_test`, app.py lines 42-99) -/

/-- The JSON payload of a `/api/run-test` request, with the route's
`data.get` defaults. -/
structure RunTestData where
  index : Option Int := none
  auth_token : Option String := none
  auth_mode : String := "token"
  username : Option String := none
  password : Option String := none
  params : List (String × JVal) := []
  random_params : List (String × JVal) := []
  custom_params : List (String × JVal) := []
  run_ai : Bool := false
  combinatorial_mode : String := "minimal"
  comb_offset : Nat := 0
  comb_limit : Nat := 64
  multi_params : List String := []
  include_params : Option (List String) := none
  isolated_params : List String := []

/-- The route's response: a rejection with an HTTP error code, or the
serialized test record. -/
inductive RunTestOutcome where
  | err : String → Nat → RunTestOutcome
  | ok : TestRecord → RunTestOutcome

/-- Whether the route accepted the request (no rejection). -/
def RunTestOutcome.isOk : RunTestOutcome → Bool
  | .ok _ => true
  | .err _ _ => false

/-- The combinatorial results list of an accepted run. -/
def RunTestOutcome.combResults : RunTestOutcome → Option (List CombEntry)
  | .ok r => some r.combinatorial_result.results
  | .err _ _ => none

/-- The reported combinatorial total of an accepted run. -/
def RunTestOutcome.combTotal : RunTestOutcome → Option Nat
  | .ok r => some r.combinatorial_result.total_count
  | .err _ _ => none

/-- Python `str(e)` for the `TypeError` the combinatorial phase raises at
swagger_tester.py line 737: the interpreter wording is abstracted into a
fixed message (no claim depends on its exact text). -/
def comb_crash_error : String :=
  "TypeError: comparison of int with NoneType"

/-- `run_test` (app.py lines 42-99) over an already-populated endpoint
cache: validates the endpoint index before anything else touches the
network, then delegates to `test_single_endpoint`.  An exception escaping
the pipeline (the `TypeError` of the combinatorial phase) is caught by
the route handler and answered as a 500 error (app.py lines 96-99).
Also returns every wire request issued. -/
def run_test (cached_endpoints : List Endpoint) (data : RunTestData)
    (config : TestConfig) (net : Probe) (gemini : String → String) :
    RunTestOutcome × List HttpRequest :=
  match data.index with
  | none => (.err "Invalid endpoint index" 400, [])
  | some idx =>
      if h : 0 ≤ idx ∧ idx < cached_endpoints.length then
        let endpoint := cached_endpoints.get
          ⟨idx.toNat, by omega⟩
        let rl := test_single_endpoint endpoint config
          (if data.auth_mode = "token" then data.auth_token else none)
          (if data.auth_mode = "creds" then data.username else none)
          (if data.auth_mode = "creds" then data.password else none)
          (some data.params) (some data.random_params)
          (some data.custom_params) data.run_ai data.combinatorial_mode
          data.comb_offset data.comb_limit (some data.multi_params)
          data.include_params (some data.isolated_params) net gemini
        match rl.1 with
        | some record => (.ok record, rl.2)
        | none => (.err comb_crash_error 500, rl.2)
      else (.err "Invalid endpoint index" 400, [])

/-! ## Derived definitions used by the claims -/

/-- Size of a pool value (the subset size of a multi-value candidate). -/
def PoolVal.size : PoolVal → Nat
  | .lst l => l.length
  | _ => 0

instance : Inhabited PoolVal := ⟨PoolVal.absent⟩

/-- Scenario B's `tags` parameter: optional, array-typed, no declared
example or default. -/
def tags_param : ParamInfo :=
  { name := "tags", in_loc := "query", required := .bool false,
    description := .str "", example_val := .null, default := .null,
    type := .str "array", enum := .null }

/-- A concrete required string parameter used as a witness input. -/
def req_q_param : ParamInfo :=
  { name := "q", in_loc := "query", required := .bool true,
    description := .str "", example_val := .str "ex", default := .null,
    type := .str "string", enum := .null }

/-- A minimal concrete configuration used as witness input. -/
def cfg0 : TestConfig :=
  { timeout_seconds := 10, response_time_limit_ms := 1000 }

/-- A network oracle that always answers 200 with an empty JSON object. -/
def net200 : Probe := fun _ => .ok ⟨200, 5, [], .jsonContent (.obj [])⟩

/-- A network oracle that always answers 401. -/
def net401 : Probe := fun _ => .ok ⟨401, 5, [], .jsonContent (.obj [])⟩

/-- A concrete two-parameter endpoint used as witness input. -/
def ep_ab : Endpoint :=
  { group := "g", path := "/items", method := "GET", tags := .arr [],
    summary := .str "", operation_id := .str "",
    params := [req_q_param, tags_param],
    request_body_schema := .null, response_schemas := .obj [] }

/-- A concrete `/api/run-test` payload asking for a combination window
far beyond the two-combination total of `ep_ab`. -/
def c9_data : RunTestData :=
  { index := some 0, combinatorial_mode := "full", comb_offset := 10 }

/-- A contract document whose single operation has one request-body
property `mode` declaring only a type and an enum. -/
def c6_spec : JVal :=
  .obj [("paths", .obj [("/t", .obj [("post", .obj [("requestBody",
    .obj [("content", .obj [("application/json", .obj [("schema",
      .obj [("properties", .obj [("mode", .obj [("type", .str "string"),
        ("enum", .arr [.str "a", .str "b"])])])])])])])])])])]

/-- The names of the main-pool parameters of a combinatorial run
(included parameters that are not isolated, line 678). -/
def main_pool_names (endpoint : Endpoint) (inc0 iso0 : Option (List String)) :
    List String :=
  (comb_include endpoint inc0).filter (fun n => ¬ (iso0.getD []).contains n)

/-- The full deterministic enumeration behind `run_combinatorial_tests`
(empty when the endpoint has no parameters: the source returns before
enumerating, line 592). -/
def comb_enumeration (endpoint : Endpoint)
    (bo : Option (List (String × JVal))) (multi : Option (List String))
    (inc0 : Option (List String)) (ro : Option (List (String × JVal)))
    (iso0 : Option (List String)) : List (List (String × PoolVal)) :=
  if endpoint.params.isEmpty then []
  else allCombos endpoint bo multi inc0 ro iso0

/-! ## Supporting lemmas -/

/-- `itertools.combinations` enumerates exactly the length-`k` sublists. -/
theorem mem_combinations {α : Type} (xs : List α) :
    ∀ (k : Nat) (l : List α),
      l ∈ combinations xs k ↔ l.Sublist xs ∧ l.length = k := by
  induction xs with
  | nil =>
      intro k l
      cases k with
      | zero =>
          simp only [combinations, List.mem_singleton, List.sublist_nil]
          constructor
          · rintro rfl; exact ⟨rfl, rfl⟩
          · rintro ⟨rfl, _⟩; rfl
      | succ k =>
          simp only [combinations, List.not_mem_nil, false_iff, not_and]
          intro hs
          rcases List.sublist_nil.mp hs with rfl
          simp
  | cons x xs ih =>
      intro k l
      cases k with
      | zero =>
          simp only [combinations, List.mem_singleton]
          constructor
          · rintro rfl; exact ⟨List.nil_sublist _, rfl⟩
          · rintro ⟨_, hl⟩
            exact (List.length_eq_zero.mp hl)
      | succ k =>
          simp only [combinations, List.mem_append, List.mem_map]
          constructor
          · rintro (⟨c, hc, rfl⟩ | h)
            · obtain ⟨hsub, hlen⟩ := (ih k c).mp hc
              exact ⟨hsub.cons₂ x, by simp [hlen]⟩
            · obtain ⟨hsub, hlen⟩ := (ih (k + 1) l).mp h
              exact ⟨hsub.cons x, hlen⟩
          · rintro ⟨hsub, hlen⟩
            cases hsub with
            | cons _ h => exact Or.inr ((ih (k + 1) l).mpr ⟨h, hlen⟩)
            | cons₂ _ h =>
                exact Or.inl ⟨_, (ih k _).mpr ⟨h, by simpa using hlen⟩, rfl⟩

/-- Mapping a block-constant function over a sorted flatMap is sorted. -/
theorem pairwise_le_flatMap_const {α : Type} (f : Nat → List α) (g : α → Nat)
    (is : List Nat) (hsort : is.Pairwise (· ≤ ·))
    (hval : ∀ i ∈ is, ∀ x ∈ f i, g x = i) :
    ((is.flatMap f).map g).Pairwise (· ≤ ·) := by
  induction is with
  | nil => simp
  | cons i rest ih =>
      rw [List.flatMap_cons, List.map_append]
      rw [List.pairwise_cons] at hsort
      apply List.pairwise_append.mpr
      refine ⟨?_, ih hsort.2 (fun j hj => hval j (List.mem_cons_of_mem _ hj)),
        ?_⟩
      · rw [List.pairwise_map]
        apply List.pairwise_of_forall_mem_list
        intro a ha b hb
        rw [hval i (List.mem_cons_self _ _) a ha,
          hval i (List.mem_cons_self _ _) b hb]
      · intro a ha b hb
        rw [List.mem_map] at ha hb
        obtain ⟨xa, hxa, rfl⟩ := ha
        obtain ⟨xb, hxb, rfl⟩ := hb
        rw [List.mem_flatMap] at hxb
        obtain ⟨j, hj, hxbj⟩ := hxb
        rw [hval i (List.mem_cons_self _ _) xa hxa,
          hval j (List.mem_cons_of_mem _ hj) xb hxbj]
        exact hsort.1 j hj

/-- Membership through the first-occurrence dedup loop. -/
theorem mem_pydedupAux {α : Type} [DecidableEq α] (l : List α) :
    ∀ (acc : List α) (v : α), v ∈ pydedupAux acc l ↔ v ∈ acc ∨ v ∈ l := by
  induction l with
  | nil => intro acc v; simp [pydedupAux]
  | cons c rest ih =>
      intro acc v
      by_cases hc : acc.contains c = true
      · rw [show pydedupAux acc (c :: rest) = pydedupAux acc rest from
          by simp only [pydedupAux, if_pos hc]]
        rw [ih]
        constructor
        · rintro (h | h)
          · exact Or.inl h
          · exact Or.inr (List.mem_cons_of_mem _ h)
        · rintro (h | h)
          · exact Or.inl h
          · rcases List.mem_cons.mp h with rfl | h
            · exact Or.inl (by simpa using hc)
            · exact Or.inr h
      · rw [show pydedupAux acc (c :: rest)
            = pydedupAux (acc ++ [c]) rest from
          by simp only [pydedupAux, if_neg hc]]
        rw [ih]
        simp only [List.mem_append, List.mem_singleton, List.mem_cons]
        tauto

/-- Membership through `pydedup`. -/
theorem mem_pydedup {α : Type} [DecidableEq α] (l : List α) (v : α) :
    v ∈ pydedup l ↔ v ∈ l := by
  rw [pydedup, mem_pydedupAux]
  simp

/-- Candidate expansion never produces the absence sentinel. -/
theorem absent_not_mem_build_candidates (p : ParamInfo)
    (multi_params : List String) (all_samples : List String) :
    PoolVal.absent ∉ build_candidates p multi_params all_samples := by
  unfold build_candidates
  split
  · intro h
    rw [List.mem_flatMap] at h
    obtain ⟨i, _, hmem⟩ := h
    rw [List.mem_map] at hmem
    obtain ⟨c, _, hc⟩ := hmem
    exact PoolVal.noConfusion hc
  · intro h
    rw [List.mem_map] at h
    obtain ⟨c, _, hc⟩ := h
    exact PoolVal.noConfusion hc

/-- Candidate expansion of an empty sample list is empty. -/
theorem build_candidates_nil (p : ParamInfo) (multi_params : List String) :
    build_candidates p multi_params [] = [] := by
  unfold build_candidates
  split <;> simp [List.range']

/-- Every built pool is non-empty. -/
theorem build_pool_ne_nil (p : ParamInfo)
    (include_params multi_params : List String)
    (bo ro : List (String × JVal)) :
    build_pool p include_params multi_params bo ro ≠ [] := by
  unfold build_pool
  split
  · split <;> simp
  · split
    · rename_i hne
      split
      · simp
      · simpa [List.isEmpty_iff] using hne
    · split <;> simp

/-- `insertA` on a fresh key appends. -/
theorem insertA_fresh {α : Type} (acc : List (String × α)) (k : String)
    (v : α) (h : ∀ kv ∈ acc, kv.1 ≠ k) : insertA acc k v = acc ++ [(k, v)] := by
  induction acc with
  | nil => simp [insertA]
  | cons kv rest ih =>
      simp only [insertA]
      rw [if_neg (h kv (List.mem_cons_self _ _)), ih
        (fun kv' h' => h kv' (List.mem_cons_of_mem _ h'))]
      simp

/-- A fold of `insertA`s over parameters with duplicate-free fresh names
is an append of one entry per parameter. -/
theorem foldl_insertA_eq_append {α : Type} (f : ParamInfo → α)
    (params : List ParamInfo) :
    ∀ (acc : List (String × α)),
      (∀ q ∈ params, ∀ kv ∈ acc, kv.1 ≠ q.name) →
      (params.map (·.name)).Nodup →
      params.foldl (fun a q => insertA a q.name (f q)) acc
        = acc ++ params.map (fun q => (q.name, f q)) := by
  induction params with
  | nil => intro acc _ _; simp
  | cons q rest ih =>
      intro acc hfresh hnodup
      simp only [List.foldl_cons]
      rw [insertA_fresh acc q.name (f q)
        (hfresh q (List.mem_cons_self _ _))]
      rw [List.map_cons, List.nodup_cons] at hnodup
      rw [ih (acc ++ [(q.name, f q)]) ?_ hnodup.2]
      · simp
      · intro q' hq' kv hkv
        rcases List.mem_append.mp hkv with h | h
        · exact hfresh q' (List.mem_cons_of_mem _ hq') kv h
        · rcases List.mem_singleton.mp h with rfl
          intro hcontra
          apply hnodup.1
          rw [show q.name = q'.name from hcontra]
          exact List.mem_map_of_mem (·.name) hq'

/-- Looking up a parameter's entry in the per-name map. -/
theorem lookup_map_param {α : Type} (params : List ParamInfo)
    (f : ParamInfo → α) (p : ParamInfo) (hp : p ∈ params)
    (hnodup : (params.map (·.name)).Nodup) :
    (params.map (fun q => (q.name, f q))).lookup p.name = some (f p) := by
  induction params with
  | nil => cases hp
  | cons q rest ih =>
      rw [List.map_cons, List.nodup_cons] at hnodup
      rcases List.mem_cons.mp hp with rfl | hp'
      · simp [List.lookup]
      · have hne : p.name ≠ q.name := by
          intro hcontra
          apply hnodup.1
          rw [← hcontra]
          exact List.mem_map_of_mem (·.name) hp'
        have hbeq : (p.name == q.name) = false := by simpa using hne
        simp only [List.map_cons, List.lookup, hbeq]
        exact ih hp' hnodup.2

/-- `build_baselines` is the per-name `pool[0]` map when names are
unique. -/
theorem build_baselines_eq_map (params : List ParamInfo)
    (inc multi : List String) (bo ro : List (String × JVal))
    (hnodup : (params.map (·.name)).Nodup) :
    build_baselines params inc multi bo ro
      = params.map (fun q =>
          (q.name, (build_pool q inc multi bo ro).headD .absent)) := by
  unfold build_baselines
  rw [foldl_insertA_eq_append _ params [] (by simp) hnodup]
  simp

/-- The Cartesian product of non-empty pools is non-empty. -/
theorem pyProduct_ne_nil {α : Type} (ls : List (List α))
    (h : ∀ l ∈ ls, l ≠ []) : pyProduct ls ≠ [] := by
  induction ls with
  | nil => simp [pyProduct]
  | cons pool rest ih =>
      simp only [pyProduct]
      intro hcontra
      rcases List.flatMap_eq_nil_iff.mp hcontra with hall
      cases hpool : pool with
      | nil => exact h pool (List.mem_cons_self _ _) hpool
      | cons x xs =>
          have := hall x (by rw [hpool]; exact List.mem_cons_self _ _)
          rw [List.map_eq_nil_iff] at this
          exact ih (fun l hl => h l (List.mem_cons_of_mem _ hl)) this

/-- A body property's parameter keeps the property name. -/
theorem extract_body_param_name (rfields : JVal) (p_name : String)
    (p_details : JVal) :
    (extract_body_param rfields p_name p_details).name = p_name := rfl

/-- The body-flattening fold appends one parameter per non-colliding
property, in property order, when property names are unique. -/
theorem flatten_fold_eq (rfields : JVal) (props : List (String × JVal)) :
    ∀ (params0 : List ParamInfo),
      (props.map Prod.fst).Nodup →
      props.foldl (fun params kv =>
        if params.any (fun e => e.name = kv.1) then params
        else params ++ [extract_body_param rfields kv.1 kv.2]) params0
      = params0 ++ (props.filter (fun kv =>
          ! params0.any (fun e => e.name = kv.1))).map
            (fun kv => extract_body_param rfields kv.1 kv.2) := by
  induction props with
  | nil => intro params0 _; simp
  | cons kv rest ih =>
      intro params0 hnodup
      rw [List.map_cons, List.nodup_cons] at hnodup
      simp only [List.foldl_cons, List.filter_cons]
      by_cases hcol : params0.any (fun e => e.name = kv.1) = true
      · rw [if_pos hcol]
        have hdrop : (! params0.any (fun e => e.name = kv.1)) = false := by
          simp [hcol]
        rw [hdrop]
        simp only [Bool.false_eq_true, if_false]
        exact ih params0 hnodup.2
      · rw [if_neg hcol]
        have hkeep : (! params0.any (fun e => e.name = kv.1)) = true := by
          simp [Bool.not_eq_true', ← Bool.not_eq_true, hcol]
        rw [hkeep]
        simp only [if_true]
        rw [ih (params0 ++ [extract_body_param rfields kv.1 kv.2])
          hnodup.2]
        rw [List.map_cons, List.append_assoc, List.singleton_append]
        congr 2
        apply congrArg
        apply List.filter_congr
        intro kv2 hkv2
        have hne : kv.1 ≠ kv2.1 := by
          intro hcontra
          apply hnodup.1
          rw [hcontra]
          exact List.mem_map_of_mem Prod.fst hkv2
        simp only [List.any_append, List.any_cons, List.any_nil,
          extract_body_param_name, Bool.or_false]
        simp [hne]

/-- A non-empty `properties` object forces the flattening guard true. -/
theorem flatten_guard_true (schema : JVal) (props : List (String × JVal))
    (hprops : schema.getD "properties" (.obj []) = .obj props)
    (hne : props ≠ []) :
    (schema.truthy && (schema.getD "properties" .null).truthy) = true := by
  cases hlk : schema.lookup "properties" with
  | none =>
      rw [JVal.getD, hlk] at hprops
      simp only [Option.getD_none] at hprops
      cases hprops
      exact absurd rfl hne
  | some v =>
      have hv : v = .obj props := by
        rw [JVal.getD, hlk] at hprops
        simpa using hprops
      subst hv
      cases schema with
      | obj fields =>
          cases fields with
          | nil => simp [JVal.lookup, List.lookup] at hlk
          | cons f fs =>
              rw [JVal.getD, hlk]
              simp only [Option.getD_some]
              cases hp : props with
              | nil => exact absurd hp hne
              | cons a b => simp [JVal.truthy, hp]
      | null => simp [JVal.lookup] at hlk
      | bool b => simp [JVal.lookup] at hlk
      | int n => simp [JVal.lookup] at hlk
      | str s => simp [JVal.lookup] at hlk
      | arr l => simp [JVal.lookup] at hlk

/-- C7: for a parameter flagged for multi-value combination testing, the
candidate expansion lists exactly the non-empty sublists (the non-empty
power-set) of the collected samples, ordered by increasing subset size;
in particular an optional `tags` parameter with samples `[a, b]` gets the
pool `[[a], [b], [a, b]]` with the absence sentinel appended after it. -/
theorem value_pool_powerset_expansion (p : ParamInfo)
    (multi_params : List String) (all_samples : List String)
    (hmulti : multi_params.contains p.name = true) :
    (∀ l : List String,
        PoolVal.lst l ∈ build_candidates p multi_params all_samples ↔
          l.Sublist all_samples ∧ l ≠ []) ∧
    ((build_candidates p multi_params all_samples).map PoolVal.size).Pairwise
      (· ≤ ·) ∧
    (pydedup (build_candidates tags_param ["tags"] ["a", "b"])
        = [.lst ["a"], .lst ["b"], .lst ["a", "b"]] ∧
      build_pool tags_param ["tags"] ["tags"] [("tags", .str "a,b")] []
        = [.lst ["a"], .lst ["b"], .lst ["a", "b"], .absent]) := by
  refine ⟨?_, ?_, by decide, by decide⟩
  · intro l
    simp only [build_candidates, hmulti, if_true, List.mem_flatMap,
      List.mem_map, List.mem_range'_1]
    constructor
    · rintro ⟨i, ⟨h1, h2⟩, c, hc, hlst⟩
      obtain ⟨hsub, hlen⟩ := (mem_combinations all_samples i c).mp hc
      cases hlst
      refine ⟨hsub, ?_⟩
      intro hnil
      subst hnil
      simp at hlen
      omega
    · rintro ⟨hsub, hne⟩
      refine ⟨l.length, ⟨?_, ?_⟩, l, ?_, rfl⟩
      · cases l with
        | nil => exact absurd rfl hne
        | cons a t => simp
      · have := hsub.length_le
        omega
      · exact (mem_combinations all_samples l.length l).mpr ⟨hsub, rfl⟩
  · simp only [build_candidates, hmulti, if_true]
    apply pairwise_le_flatMap_const
    · exact (List.pairwise_lt_range' 1 all_samples.length).imp
        (fun h => Nat.le_of_lt h)
    · intro i _ x hx
      rw [List.mem_map] at hx
      obtain ⟨c, hc, rfl⟩ := hx
      obtain ⟨_, hlen⟩ := (mem_combinations all_samples i c).mp hc
      simpa [PoolVal.size] using hlen

/-- Witness for C7: the Scenario B pool, via the theorem at the `tags`
parameter. -/
theorem value_pool_powerset_expansion_witness :
    pydedup (build_candidates tags_param ["tags"] ["a", "b"])
        = [.lst ["a"], .lst ["b"], .lst ["a", "b"]] ∧
    build_pool tags_param ["tags"] ["tags"] [("tags", JVal.str "a,b")] []
        = [.lst ["a"], .lst ["b"], .lst ["a", "b"], .absent] :=
  (value_pool_powerset_expansion tags_param ["tags"] ["a", "b"]
    (by decide)).2.2

/-- C8: the Value Pool Builder puts the absence sentinel into a required
parameter's pool only as the second entry of the synthetic failure-mode
pool `[declaredExampleOrDefault, absent]`; with no collected samples,
required parameters get exactly that pool and optional parameters get
`[absent]`; every pool is non-empty and the registered baseline value is
always the pool's index-0 element. -/
theorem value_pool_required_absence (p : ParamInfo)
    (include_params multi_params : List String)
    (bo ro : List (String × JVal)) :
    (p.isRequired = true →
        PoolVal.absent ∈ build_pool p include_params multi_params bo ro →
        build_pool p include_params multi_params bo ro
          = [.s (example_or_default p).pyStr, .absent]) ∧
    (include_params.contains p.name = true →
        collect_samples p bo ro = [] →
        (p.isRequired = true →
          build_pool p include_params multi_params bo ro
            = [.s (example_or_default p).pyStr, .absent]) ∧
        (p.isRequired = false →
          build_pool p include_params multi_params bo ro = [.absent])) ∧
    (build_pool p include_params multi_params bo ro ≠ [] ∧
      ∀ params : List ParamInfo, p ∈ params →
        (params.map (·.name)).Nodup →
        (build_baselines params include_params multi_params bo ro).lookup
            p.name
          = some ((build_pool p include_params multi_params bo ro).headD
              .absent)) := by
  refine ⟨?_, ?_, build_pool_ne_nil p include_params multi_params bo ro, ?_⟩
  · intro hreq habs
    unfold build_pool at habs ⊢
    split at habs <;> rename_i hincl
    · simp at habs
    · rw [if_neg hincl]
      split at habs <;> rename_i hseen
      · split at habs
        · rename_i hguard
          simp only [Bool.and_eq_true, decide_eq_true_eq] at hguard
          exact absurd hreq hguard.1
        · exact absurd ((mem_pydedup _ _).mp habs)
            (absent_not_mem_build_candidates p multi_params _)
      · rw [if_neg hseen, if_pos hreq]
  · intro hinc hsamples
    have hseen : pool_seen p multi_params bo ro = [] := by
      rw [pool_seen, hsamples, build_candidates_nil]
      rfl
    unfold build_pool
    rw [if_neg (not_not_intro hinc), hseen]
    constructor
    · intro hreq
      simp [hreq]
    · intro hreq
      simp [ParamInfo.isRequired] at hreq
      simp [ParamInfo.isRequired, hreq]
  · intro params hp hnodup
    rw [build_baselines_eq_map params include_params multi_params bo ro
      hnodup]
    exact lookup_map_param params _ p hp hnodup

/-- Witness for C8: a required parameter with no samples gets the
synthetic pool, at a concrete parameter. -/
theorem value_pool_required_absence_witness :
    build_pool req_q_param ["q"] [] [] [] = [.s "ex", .absent] :=
  ((value_pool_required_absence req_q_param ["q"] [] [] []).2.1
    (by decide) (by decide)).1 rfl

/-- C2: `call_endpoint` always returns a `ProbeResult` (it is a total
function of the network outcome); its `error` field is set if and only if
the transport failed (connection failure, timeout, or other transport
exception); whenever `error` is set, `statusCode` is absent, and a present
`statusCode` excludes `error`; a probe whose connection is refused returns
`error = "Connection refused or DNS failure"` with no `statusCode`. -/
theorem call_endpoint_error_iff_transport_failure
    (url method : String) (headers : List (String × String))
    (json_body : JVal) (timeout : Nat) (net : Probe) :
    ((call_endpoint url method headers json_body timeout net).error.isSome
      = (net (wire_request url method headers json_body)).isFailure) ∧
    ((call_endpoint url method headers json_body timeout net).status_code.isSome
      = !(net (wire_request url method headers json_body)).isFailure) ∧
    ((call_endpoint url method headers json_body timeout net).error.isSome →
      (call_endpoint url method headers json_body timeout net).status_code
        = none) ∧
    (net (wire_request url method headers json_body) = .connError →
      (call_endpoint url method headers json_body timeout net).error
          = some "Connection refused or DNS failure" ∧
        (call_endpoint url method headers json_body timeout net).status_code
          = none) := by
  cases h : net (wire_request url method headers json_body) with
  | ok resp =>
      cases hc : resp.content <;>
        simp [call_endpoint, h, hc, NetOutcome.isFailure]
  | connError => simp [call_endpoint, h, NetOutcome.isFailure]
  | timeout => simp [call_endpoint, h, NetOutcome.isFailure]
  | otherError msg => simp [call_endpoint, h, NetOutcome.isFailure]

/-- Witness for C2: a probe against a network that refuses the connection
returns the documented error with no status code. -/
theorem call_endpoint_error_iff_transport_failure_witness :
    (call_endpoint "http://unreachable.example/api" "GET" [] .null 10
      (fun _ => .connError)).error = some "Connection refused or DNS failure"
    ∧ (call_endpoint "http://unreachable.example/api" "GET" [] .null 10
      (fun _ => .connError)).status_code = none :=
  (call_endpoint_error_iff_transport_failure "http://unreachable.example/api"
    "GET" [] .null 10 (fun _ => .connError)).2.2.2 rfl

/-- C10: a method string outside GET/POST/PUT/DELETE/PATCH is neither
rejected nor an error: the probe silently issues a GET to the same URL
(same wire request as an explicit GET) and returns that GET's
`ProbeResult`, with only the echoed `method` field keeping the original
string. -/
theorem call_endpoint_unknown_method_issues_get
    (url method : String) (headers : List (String × String))
    (json_body : JVal) (timeout : Nat) (net : Probe)
    (h : method ∉ ["GET", "POST", "PUT", "DELETE", "PATCH"]) :
    wire_request url method headers json_body
      = wire_request url "GET" headers json_body ∧
    call_endpoint url method headers json_body timeout net
      = { call_endpoint url "GET" headers json_body timeout net with
          method := method } := by
  simp only [List.mem_cons, List.not_mem_nil, or_false, not_or] at h
  obtain ⟨h1, h2, h3, h4, h5⟩ := h
  have hwire : wire_request url method headers json_body
      = wire_request url "GET" headers json_body := by
    simp [wire_request, h1, h2, h3, h4, h5]
  refine ⟨hwire, ?_⟩
  unfold call_endpoint
  rw [hwire]
  cases hn : net (wire_request url "GET" headers json_body) with
  | ok resp => cases hc : resp.content <;> simp [hn, hc]
  | connError => simp [hn]
  | timeout => simp [hn]
  | otherError msg => simp [hn]

/-- Witness for C10: an `OPTIONS` probe is the corresponding GET probe up
to the echoed method string. -/
theorem call_endpoint_unknown_method_issues_get_witness :
    wire_request "http://h/x" "OPTIONS" [] .null
      = wire_request "http://h/x" "GET" [] .null ∧
    call_endpoint "http://h/x" "OPTIONS" [] .null 10
        (fun _ => .ok ⟨200, 5, [], .jsonContent (.obj [])⟩)
      = { call_endpoint "http://h/x" "GET" [] .null 10
          (fun _ => .ok ⟨200, 5, [], .jsonContent (.obj [])⟩) with
          method := "OPTIONS" } :=
  call_endpoint_unknown_method_issues_get "http://h/x" "OPTIONS" [] .null 10
    (fun _ => .ok ⟨200, 5, [], .jsonContent (.obj [])⟩) (by decide)

/-- C5: the Request Builder is pure and deterministic — it is embedded as
a total function of exactly `(base_url, endpoint, overrides, skip, empty,
include)`, so two calls on identical inputs yield identical
`(url, jsonBody)` pairs. -/
theorem build_test_url_pure (base_url : String) (endpoint : Endpoint)
    (param_overrides : Option (List (String × JVal)))
    (skip_params empty_params include_params : Option (List String)) :
    build_test_url base_url endpoint param_overrides skip_params
        empty_params include_params
      = build_test_url base_url endpoint param_overrides skip_params
        empty_params include_params := rfl

/-- C1 counterexample: for a concrete endpoint whose baseline probe
returns 401 (AI analysis requested), the minimal record returned by the
pipeline does **not** contain an Auth phase result — no auth probe was
run and the record has no `auth_test` key — and `ai_analysis` is set to
an explanatory message rather than left unset. -/
theorem pipeline_early_exit_counterexample :
    ((test_single_endpoint ep_ab cfg0 none none none none none none true
        "minimal" 0 64 none none none net401 (fun _ => "")).1).map
          (·.auth_test)
      = some none ∧
    ((test_single_endpoint ep_ab cfg0 none none none none none none true
        "minimal" 0 64 none none none net401 (fun _ => "")).1).map
          (·.ai_analysis)
      = some (some "Authentication failed (401). Please check your token/credentials.") := by
  exact ⟨rfl, rfl⟩

/-- C1 (amended): if the baseline probe returns 401, the pipeline halts
after recording the Baseline: exactly one wire request was issued, the
returned record carries only the Baseline result (the Auth phase and all
other full-pipeline keys are absent), every phase list it does carry is
empty, and `ai_analysis` is unset unless AI analysis was requested, in
which case it is a fixed explanatory message. -/
theorem pipeline_early_exit_on_401
    (endpoint : Endpoint) (config : TestConfig)
    (auth_token username password : Option String)
    (po ro co : Option (List (String × JVal))) (run_ai : Bool)
    (mode : String) (comb_offset comb_limit : Nat)
    (mp ip isp : Option (List String)) (net : Probe)
    (gemini : String → String)
    (h401 : (tse_baseline endpoint config auth_token username password po
        co ip net).1.status_code = some 401) :
    (test_single_endpoint endpoint config auth_token username password po
        ro co run_ai mode comb_offset comb_limit mp ip isp net gemini).1
      = some
        { baseline := (tse_baseline endpoint config auth_token username
            password po co ip net).1,
          enum_results := [],
          combinatorial_result :=
            { results := [], total_count := 0, offset := comb_offset,
              limit := comb_limit },
          logic_findings := [],
          granular_fuzz := some [],
          auth_findings := some [],
          ai_analysis :=
            if run_ai then
              some "Authentication failed (401). Please check your token/credentials."
            else none } ∧
    (test_single_endpoint endpoint config auth_token username password po
        ro co run_ai mode comb_offset comb_limit mp ip isp net
        gemini).2.length = 1 := by
  simp only [test_single_endpoint]
  rw [if_pos h401]
  exact ⟨rfl, rfl⟩

/-- Witness for C1 (amended): the early exit at a concrete endpoint and a
network that always answers 401. -/
theorem pipeline_early_exit_on_401_witness :
    (test_single_endpoint ep_ab cfg0 none none none none none none false
        "minimal" 0 64 none none none net401 (fun _ => "")).1
      = some
        { baseline := (tse_baseline ep_ab cfg0 none none none none none
            none net401).1,
          enum_results := [],
          combinatorial_result :=
            { results := [], total_count := 0, offset := 0, limit := 64 },
          logic_findings := [],
          granular_fuzz := some [],
          auth_findings := some [],
          ai_analysis :=
            if false then
              some "Authentication failed (401). Please check your token/credentials."
            else none } ∧
    (test_single_endpoint ep_ab cfg0 none none none none none none false
        "minimal" 0 64 none none none net401 (fun _ => "")).2.length = 1 :=
  pipeline_early_exit_on_401 ep_ab cfg0 none none none none none none
    false "minimal" 0 64 none none none net401 (fun _ => "") rfl

/-- C9 counterexample: a run requesting the combination window at offset
10 of an endpoint whose combinatorial total is 2 is **not** rejected —
the route accepts it, the pipeline issues eight wire requests to the
target, and the combinatorial phase silently returns an empty window
rather than an error. -/
theorem invalid_selection_counterexample :
    (run_test [ep_ab] c9_data cfg0 net200 (fun _ => "")).1.isOk = true ∧
    (run_test [ep_ab] c9_data cfg0 net200 (fun _ => "")).1.combTotal
      = some 2 ∧
    (run_test [ep_ab] c9_data cfg0 net200 (fun _ => "")).1.combResults
      = some [] ∧
    (run_test [ep_ab] c9_data cfg0 net200 (fun _ => "")).2.length = 8 := by
  exact ⟨rfl, rfl, rfl, rfl⟩

/-- C9 (amended): an out-of-range endpoint index is rejected with an
"Invalid endpoint index" error before any wire request is issued; a
combination window whose offset lies at or beyond the totalCount is not
rejected at all — the combinatorial phase simply returns an empty results
window (no combination probe runs) while reporting the same totalCount,
and the rest of the pipeline still runs. -/
theorem invalid_selection_handling
    (cached : List Endpoint) (data : RunTestData) (config : TestConfig)
    (net : Probe) (gemini : String → String) (endpoint : Endpoint)
    (base_url : String) (headers : List (String × String))
    (bo ro : Option (List (String × JVal))) (mode : String)
    (offset limit : Nat) (multi inc0 iso0 : Option (List String)) :
    (data.index = none →
      run_test cached data config net gemini
        = (.err "Invalid endpoint index" 400, [])) ∧
    (∀ idx : Int, data.index = some idx →
      ¬ (0 ≤ idx ∧ idx < cached.length) →
      run_test cached data config net gemini
        = (.err "Invalid endpoint index" 400, [])) ∧
    (mode ≠ "minimal" →
      (allCombos endpoint bo multi inc0 ro iso0).length ≤ offset →
      ((run_combinatorial_tests endpoint base_url headers config bo mode
          offset limit multi inc0 ro iso0 net).1).map (·.results)
        = some [] ∧
      ((run_combinatorial_tests endpoint base_url headers config bo mode
          offset limit multi inc0 ro iso0 net).1).map (·.total_count)
        = some (comb_enumeration endpoint bo multi inc0 ro iso0).length)
      := by
  refine ⟨?_, ?_, ?_⟩
  · intro hidx
    simp [run_test, hidx]
  · intro idx hidx hrange
    simp only [run_test, hidx]
    rw [dif_neg hrange]
  · intro hmode hoff
    cases h : endpoint.params.isEmpty with
    | true =>
        constructor
        · simp [run_combinatorial_tests, h]
        · simp [run_combinatorial_tests, comb_enumeration, h]
    | false =>
        have hsub : (if mode = "minimal" then
              (allCombos endpoint bo multi inc0 ro iso0).take 1
            else
              ((allCombos endpoint bo multi inc0 ro iso0).drop
                offset).take limit)
            = [] := by
          rw [if_neg hmode, List.drop_eq_nil_of_le hoff, List.take_nil]
        constructor
        · simp only [run_combinatorial_tests, h, Bool.false_eq_true,
            if_false, hsub, run_comb_loop, Option.map_some']
        · simp only [run_combinatorial_tests, h, Bool.false_eq_true,
            if_false, hsub, run_comb_loop, Option.map_some',
            comb_enumeration]

/-- Witness for C9 (amended): index 5 of a one-endpoint cache is rejected
with no wire requests. -/
theorem invalid_selection_handling_witness :
    run_test [ep_ab] { index := some 5 } cfg0 net200 (fun _ => "")
      = (.err "Invalid endpoint index" 400, []) :=
  (invalid_selection_handling [ep_ab] { index := some 5 } cfg0 net200
    (fun _ => "") ep_ab "" [] none none "full" 0 0 none none
    none).2.1 5 rfl (by decide)

/-- C6 counterexample: a request-body property `mode` declaring
`type: string` and `enum: [a, b]` (no example, no default) is parsed with
placeholder value `"test"` — the type fallback — not the first enum value
`"a"`: body properties do not follow the claimed priority order. -/
theorem parse_endpoints_body_enum_counterexample :
    ((parse_endpoints c6_spec "g").flatMap (·.params)).map (·.example_val)
      = [JVal.str "test"] ∧
    ((parse_endpoints c6_spec "g").flatMap (·.params)).map (·.in_loc)
      = ["body"] ∧
    JVal.str "test" ≠ JVal.str "a" := by
  refine ⟨rfl, rfl, ?_⟩
  intro h
  injection h with h2
  exact absurd h2 (by decide)

/-- C6 (amended): a parameter from the `parameters` array resolves its
placeholder in the priority order declared example → schema example →
non-null default → first enum value → type-keyed fallback; request-body
properties are flattened into the same sequence with `location = body`,
skipping any name collision with an already collected parameter, but
their placeholder is `example or default` under Python truthiness and
then the body type fallback — with no enum step. -/
theorem parse_param_resolution :
    (∀ (p v : JVal), JVal.lookup p "example" = some v →
      (extract_param p).example_val = v) ∧
    (∀ (p v : JVal), JVal.lookup p "example" = none →
      JVal.lookup (p.getD "schema" (.obj [])) "example" = some v →
      (extract_param p).example_val = v) ∧
    (∀ p : JVal, JVal.lookup p "example" = none →
      JVal.lookup (p.getD "schema" (.obj [])) "example" = none →
      ((p.getD "schema" (.obj [])).getD "default" .null).isNull = false →
      (extract_param p).example_val
        = (p.getD "schema" (.obj [])).getD "default" .null) ∧
    (∀ (p x : JVal) (xs : List JVal), JVal.lookup p "example" = none →
      JVal.lookup (p.getD "schema" (.obj [])) "example" = none →
      ((p.getD "schema" (.obj [])).getD "default" .null).isNull = true →
      (p.getD "schema" (.obj [])).getD "enum" .null = .arr (x :: xs) →
      (extract_param p).example_val = x) ∧
    (∀ p : JVal, JVal.lookup p "example" = none →
      JVal.lookup (p.getD "schema" (.obj [])) "example" = none →
      ((p.getD "schema" (.obj [])).getD "default" .null).isNull = true →
      ((p.getD "schema" (.obj [])).getD "enum" .null).truthy = false →
      (extract_param p).example_val
        = type_defaults_query
            ((p.getD "schema" (.obj [])).getD "type" (.str "string"))) ∧
    (∀ (rfields : JVal) (p_name : String) (p_details : JVal),
      (extract_body_param rfields p_name p_details).in_loc = "body") ∧
    (∀ (rfields : JVal) (p_name : String) (p_details : JVal),
      (p_details.getD "example" .null).truthy = true →
      (extract_body_param rfields p_name p_details).example_val
        = p_details.getD "example" .null) ∧
    (∀ (rfields : JVal) (p_name : String) (p_details : JVal),
      (p_details.getD "example" .null).truthy = false →
      (p_details.getD "default" .null).truthy = true →
      (extract_body_param rfields p_name p_details).example_val
        = p_details.getD "default" .null) ∧
    (∀ (rfields : JVal) (p_name : String) (p_details : JVal),
      (p_details.getD "example" .null).truthy = false →
      (p_details.getD "default" .null).truthy = false →
      (extract_body_param rfields p_name p_details).example_val
        = type_defaults_body (p_details.getD "type" (.str "string"))) ∧
    (∀ (schema : JVal) (props : List (String × JVal))
        (params0 : List ParamInfo),
      schema.getD "properties" (.obj []) = .obj props →
      (props.map Prod.fst).Nodup →
      flatten_body_props params0 schema
        = params0 ++ (props.filter (fun kv =>
            ! params0.any (fun e => e.name = kv.1))).map
              (fun kv => extract_body_param
                (schema.getD "required" (.arr [])) kv.1 kv.2)) := by
  refine ⟨?_, ?_, ?_, ?_, ?_, ?_, ?_, ?_, ?_, ?_⟩
  · intro p v h
    simp [extract_param, h]
  · intro p v h1 h2
    simp [extract_param, h1, h2]
  · intro p h1 h2 h3
    simp [extract_param, h1, h2, h3]
  · intro p x xs h1 h2 h3 h4
    simp [extract_param, h1, h2, h3, h4, enumFirst, JVal.truthy]
  · intro p h1 h2 h3 h4
    simp [extract_param, h1, h2, h3, h4]
  · intro rfields p_name p_details
    rfl
  · intro rfields p_name p_details h
    simp [extract_body_param, h]
  · intro rfields p_name p_details h1 h2
    simp [extract_body_param, h1, h2]
  · intro rfields p_name p_details h1 h2
    simp [extract_body_param, h1, h2]
  · intro schema props params0 hprops hnodup
    by_cases hempty : props = []
    · subst hempty
      unfold flatten_body_props
      split
      · rw [hprops]
        simp
      · simp
    · unfold flatten_body_props
      rw [if_pos (flatten_guard_true schema props hprops hempty), hprops]
      exact flatten_fold_eq (schema.getD "required" (.arr [])) props
        params0 hnodup

/-- Witness for C6 (amended): a declared example wins, at a concrete
parameter object. -/
theorem parse_param_resolution_witness :
    (extract_param (JVal.obj [("name", JVal.str "a"),
        ("example", JVal.str "E")])).example_val = JVal.str "E" :=
  parse_param_resolution.1 (JVal.obj [("name", JVal.str "a"),
    ("example", JVal.str "E")]) (JVal.str "E") rfl

end SwaggerTester
